import Mathlib

/-!
Shallow embedding of src/Housing/component/data_transformation.py.

The numeric entries of the tables are modelled polymorphically: the claim
theorems are stated over the exact rationals, while concrete witnesses may
instantiate the same definitions at the integers, where the kernel can
evaluate them.  Division by zero with IEEE semantics is modelled by the
FVal type further down.

Python exceptions are modelled by the PyErr type; the single domain error
type HousingException of the repository is modelled by the housingError
constructor, which wraps the original cause (possibly itself a wrapped
domain error, exactly as the nested try/except blocks of the source
produce).  Fallible Python code becomes Except PyErr.
-/

namespace Housing

/-- Python exception values: the raw library errors plus the domain error
type HousingException, which carries its original cause. -/
inductive PyErr where
  | valueError (msg : String)
  | keyError (msg : String)
  | indexError (msg : String)
  | ioError (msg : String)
  | housingError (cause : PyErr)
  deriving DecidableEq, Repr

/-- Modelled from the spec: constant COLUMN_TOTAL_ROOMS of Housing.constant
(the module is not under src); the spec names the four required columns
total_rooms, population, households, total_bedrooms. -/
def COLUMN_TOTAL_ROOMS : String := "total_rooms"

/-- Modelled from the spec: constant COLUMN_POPULATION of Housing.constant. -/
def COLUMN_POPULATION : String := "population"

/-- Modelled from the spec: constant COLUMN_HOUSEHOLDS of Housing.constant. -/
def COLUMN_HOUSEHOLDS : String := "households"

/-- Modelled from the spec: constant COLUMN_TOTAL_BEDROOM of Housing.constant. -/
def COLUMN_TOTAL_BEDROOM : String := "total_bedrooms"

def msgIndexNotFound : String := "x not in list"

def msgIndexOOB : String := "index out of bounds"

/-- Python list.index: position of the first occurrence, ValueError when the
element is absent (used by FeatureGenerator.__init__, lines 36-39). -/
def pyIndex (l : List String) (x : String) : Except PyErr Nat :=
  match l with
  | [] => Except.error (PyErr.valueError msgIndexNotFound)
  | y :: ys =>
      if y = x then Except.ok 0
      else (pyIndex ys x).map (fun i => i + 1)

/-- The configuration attributes stored by FeatureGenerator.__init__
(lines 34, 41-45 of the source). -/
structure FeatureGenerator where
  columns : Option (List String)
  add_bedrooms_per_room : Bool
  total_rooms_ix : Nat
  population_ix : Nat
  households_ix : Nat
  total_bedrooms_ix : Nat
  deriving DecidableEq, Repr, Inhabited

/-- FeatureGenerator.__init__ (lines 20-47): when a columns list is given
the four indices are resolved by name lookup, overriding the passed index
arguments; any internal failure is wrapped into the domain error. -/
def FeatureGenerator.init (add_bedrooms_per_room : Bool)
    (total_rooms_ix population_ix households_ix total_bedrooms_ix : Nat)
    (columns : Option (List String)) : Except PyErr FeatureGenerator :=
  (do
    match columns with
    | some cols =>
        let tr ← pyIndex cols COLUMN_TOTAL_ROOMS
        let pop ← pyIndex cols COLUMN_POPULATION
        let hh ← pyIndex cols COLUMN_HOUSEHOLDS
        let tb ← pyIndex cols COLUMN_TOTAL_BEDROOM
        pure (FeatureGenerator.mk columns add_bedrooms_per_room tr pop hh tb)
    | none =>
        pure (FeatureGenerator.mk columns add_bedrooms_per_room total_rooms_ix
          population_ix households_ix total_bedrooms_ix)
    : Except PyErr FeatureGenerator).mapError PyErr.housingError

/-- FeatureGenerator.fit (lines 49-50): returns self, no learned state. -/
def FeatureGenerator.fit (self : FeatureGenerator) {α : Type}
    (_X : List (List α)) : FeatureGenerator :=
  self

/-- Numpy column extraction X[:, ix] on a row-major matrix; an IndexError
when the index is out of bounds for some row (numpy matrices are
rectangular, so a ragged list also reports the error). -/
def npCol {α : Type} : List (List α) → Nat → Except PyErr (List α)
  | [], _ => Except.ok []
  | row :: rest, ix =>
      match row[ix]? with
      | some x => do
          let xs ← npCol rest ix
          pure (x :: xs)
      | none => Except.error (PyErr.indexError msgIndexOOB)

/-- np.c_ with two appended column vectors (line 64-65 of the source):
row i of the result is row i of X extended with the i-th entries. -/
def npC2 {α : Type} : List (List α) → List α → List α → List (List α)
  | row :: xrest, x :: xs, y :: ys => (row ++ [x, y]) :: npC2 xrest xs ys
  | _, _, _ => []

/-- np.c_ with three appended column vectors (line 61-62 of the source). -/
def npC3 {α : Type} : List (List α) → List α → List α → List α → List (List α)
  | row :: xrest, x :: xs, y :: ys, z :: zs =>
      (row ++ [x, y, z]) :: npC3 xrest xs ys zs
  | _, _, _, _ => []

/-- FeatureGenerator.transform (lines 52-69): derives the ratio columns and
appends them after the original columns; any internal failure is wrapped
into the domain error. -/
def FeatureGenerator.transform {α : Type} [Div α] (self : FeatureGenerator)
    (X : List (List α)) : Except PyErr (List (List α)) :=
  (do
    let total_rooms_col ← npCol X self.total_rooms_ix
    let households_col ← npCol X self.households_ix
    let room_per_household := List.zipWith (fun a b => a / b)
      total_rooms_col households_col
    let population_col ← npCol X self.population_ix
    let population_per_household := List.zipWith (fun a b => a / b)
      population_col households_col
    if self.add_bedrooms_per_room then
      let total_bedrooms_col ← npCol X self.total_bedrooms_ix
      let bedrooms_per_room := List.zipWith (fun a b => a / b)
        total_bedrooms_col total_rooms_col
      pure (npC3 X room_per_household population_per_household bedrooms_per_room)
    else
      pure (npC2 X room_per_household population_per_household)
    : Except PyErr (List (List α))).mapError PyErr.housingError

/-- IEEE-style extended values as produced by numpy float division: a
finite value, the two infinities, or NaN.  The payload type is the exact
value carried by a finite float. -/
inductive FVal (α : Type) where
  | fin (a : α)
  | inf
  | neginf
  | nan
  deriving DecidableEq, Repr

/-- Numpy true division on extended values: finite division by zero gives
a signed infinity, zero by zero gives NaN, NaN propagates, an infinity
divided by a finite value keeps its sign, and infinity by infinity is NaN.
A finite value divided by an infinity is zero (the signed zero of IEEE is
collapsed to plain zero, which no claim distinguishes). -/
def FVal.div {α : Type} [LinearOrder α] [Zero α] [Div α] :
    FVal α → FVal α → FVal α
  | FVal.nan, _ => FVal.nan
  | _, FVal.nan => FVal.nan
  | FVal.fin a, FVal.fin b =>
      if b = 0 then
        if a = 0 then FVal.nan
        else if 0 < a then FVal.inf
        else FVal.neginf
      else FVal.fin (a / b)
  | FVal.fin _, FVal.inf => FVal.fin 0
  | FVal.fin _, FVal.neginf => FVal.fin 0
  | FVal.inf, FVal.fin b => if 0 ≤ b then FVal.inf else FVal.neginf
  | FVal.neginf, FVal.fin b => if 0 ≤ b then FVal.neginf else FVal.inf
  | FVal.inf, FVal.inf => FVal.nan
  | FVal.inf, FVal.neginf => FVal.nan
  | FVal.neginf, FVal.inf => FVal.nan
  | FVal.neginf, FVal.neginf => FVal.nan

instance {α : Type} [LinearOrder α] [Zero α] [Div α] : Div (FVal α) :=
  ⟨FVal.div⟩

/-- A finite extended value. -/
def FVal.isFinite {α : Type} : FVal α → Bool
  | FVal.fin _ => true
  | _ => false

/-!
The surrounding pipeline of DataTransformation, lines 73-185 of the source.
The scikit-learn estimators used there (SimpleImputer, StandardScaler,
OneHotEncoder, Pipeline, ColumnTransformer) are external library code;
they are modelled here by their documented fit/transform semantics.  The
square root used by StandardScaler is not algebraic over the exact
rationals, so it is passed in as an explicit function parameter; no claim
depends on its value.
-/

variable {α : Type}

def msgEmptyColumn : String := "empty column"

def msgRagged : String := "ragged data"

def msgShapeMismatch : String := "shape mismatch"

def msgUnknownCategory : String := "Found unknown categories during transform"

def msgNonNumericColumn : String := "could not convert string to float"

def msgNonStringColumn : String := "expected a categorical column"

def msgMissingTarget : String := "missing value in target column"

def strHandleUnknownError : String := "error"

def strHandleUnknownIgnore : String := "ignore"

def strCsv : String := ".csv"

def strNpz : String := ".npz"

def msgCompleted : String := "Data transformation completed"

/-- Lexicographic order on character lists by code point, the order numpy
uses when sorting categorical values. -/
def charListLt : List Char → List Char → Bool
  | [], [] => false
  | [], _ :: _ => true
  | _ :: _, [] => false
  | c :: cs, d :: ds =>
      if c.val < d.val then true
      else if d.val < c.val then false
      else charListLt cs ds

def strLt (a b : String) : Bool :=
  charListLt a.data b.data

/-- Insert a string into a sorted duplicate-free list, keeping it sorted
and duplicate-free. -/
def insertStr (x : String) : List String → List String
  | [] => [x]
  | y :: ys =>
      if x = y then y :: ys
      else if strLt x y then x :: y :: ys
      else y :: insertStr x ys

/-- Sorted unique values of a list of strings, as np.unique produces for
the categories of a fitted OneHotEncoder. -/
def sortedUniqueStr : List String → List String
  | [] => []
  | x :: xs => insertStr x (sortedUniqueStr xs)

def insertVal [LinearOrder α] (x : α) : List α → List α
  | [] => [x]
  | y :: ys => if x ≤ y then x :: y :: ys else y :: insertVal x ys

def sortVals [LinearOrder α] : List α → List α
  | [] => []
  | x :: xs => insertVal x (sortVals xs)

/-- Numpy median of the present values of a column, as computed by
SimpleImputer with the median strategy: middle element of the sorted
values, or the average of the two middle elements for an even count.
An empty column is reported as an error (scikit-learn drops an all-missing
column with a warning; no claim exercises that corner). -/
def pyMedian [LinearOrder α] [Add α] [Div α] [One α] (l : List α) :
    Except PyErr α :=
  let s := sortVals l
  let n := s.length
  if n % 2 = 1 then
    match s[n / 2]? with
    | some v => Except.ok v
    | none => Except.error (PyErr.valueError msgEmptyColumn)
  else
    match s[n / 2 - 1]?, s[n / 2]? with
    | some a, some b => Except.ok ((a + b) / (1 + 1))
    | _, _ => Except.error (PyErr.valueError msgEmptyColumn)

def countEq (l : List String) (x : String) : Nat :=
  (l.filter (fun y => if y = x then true else false)).length

/-- Most frequent of the present values of a column, as computed by
SimpleImputer with the most_frequent strategy; ties resolve to the
smallest value, matching the np.unique ordering scikit-learn scans. -/
def pyMode (l : List String) : Except PyErr String :=
  match sortedUniqueStr l with
  | [] => Except.error (PyErr.valueError msgEmptyColumn)
  | u0 :: us =>
      Except.ok ((u0 :: us).foldl
        (fun best x => if countEq l best < countEq l x then x else best) u0)

def optToExcept {β : Type} (e : PyErr) : Option β → Except PyErr β
  | some a => Except.ok a
  | none => Except.error e

/-- Sequence an option-valued map over a list (monadic map in Option). -/
def mapMO {β γ : Type} (f : β → Option γ) : List β → Option (List γ)
  | [] => some []
  | x :: xs =>
      match f x with
      | some y => (mapMO f xs).map (fun ys => y :: ys)
      | none => none

/-- Sequence a fallible map over a list (monadic map in Except), stopping
at the first error as a Python loop or vectorised numpy operation does. -/
def mapME {β γ : Type} (f : β → Except PyErr γ) :
    List β → Except PyErr (List γ)
  | [] => Except.ok []
  | x :: xs =>
      match f x with
      | Except.ok y => (mapME f xs).map (fun ys => y :: ys)
      | Except.error e => Except.error e

/-- Row-major view of a column-major rectangular block with the given row
count; ragged data is an error (a pandas/numpy block is rectangular). -/
def rowsFromCols {β : Type} (cols : List (List β)) (nrows : Nat) :
    Except PyErr (List (List β)) :=
  optToExcept (PyErr.valueError msgRagged)
    (mapMO (fun i => mapMO (fun cl => cl[i]?) cols) (List.range nrows))

/-- Column-major view of a row-major rectangular block with the given
column count. -/
def colsFromRows {β : Type} (rows : List (List β)) (ncols : Nat) :
    Except PyErr (List (List β)) :=
  optToExcept (PyErr.valueError msgRagged)
    (mapMO (fun j => mapMO (fun r => r[j]?) rows) (List.range ncols))

def listSum [Add α] [Zero α] : List α → α
  | [] => 0
  | x :: xs => x + listSum xs

/-- Column mean, as computed by StandardScaler.fit. -/
def meanVal [Add α] [Zero α] [Div α] [NatCast α] (l : List α) : α :=
  listSum l / (l.length : α)

/-- Biased column variance, as computed by StandardScaler.fit. -/
def varVal [Add α] [Zero α] [Sub α] [Mul α] [Div α] [NatCast α]
    (l : List α) : α :=
  let m := meanVal l
  listSum (l.map (fun x => (x - m) * (x - m))) / (l.length : α)

/-- The scale handling of scikit-learn: a zero scale is replaced by one so
that constant columns pass through unscaled. -/
def handleZeros [DecidableEq α] [Zero α] [One α] (s : α) : α :=
  if s = 0 then 1 else s

def zipW3 {β : Type} (f : β → β → β → β) : List β → List β → List β → List β
  | x :: xs, y :: ys, z :: zs => f x y z :: zipW3 f xs ys zs
  | _, _, _ => []

/-- StandardScaler.transform: centre (when with_mean) and divide by the
learned scale, per column; a row whose width differs from the learned
number of features is a shape error. -/
def scalerTransform [Sub α] [Div α] (with_mean : Bool) (mean scale : List α)
    (rows : List (List α)) : Except PyErr (List (List α)) :=
  if rows.all (fun r => r.length = scale.length) then
    Except.ok (rows.map (fun r =>
      if with_mean then zipW3 (fun x m s => (x - m) / s) r mean scale
      else List.zipWith (fun x s => x / s) r scale))
  else Except.error (PyErr.valueError msgShapeMismatch)

/-- The configuration of scikit-learn OneHotEncoder; the source constructs
it with all defaults (line 107), so handle_unknown is the default policy
error. -/
structure OneHotEncoder where
  handle_unknown : String
  deriving DecidableEq, Repr, Inhabited

def oneHotEncoderDefault : OneHotEncoder :=
  OneHotEncoder.mk strHandleUnknownError

/-- Indicator encoding of one categorical value against the learned
categories of its column: a value outside the categories is an error under
the error policy and an all-zero row under the ignore policy. -/
def oheEncode1 [Zero α] [One α] (handle_unknown : String)
    (cats : List String) (x : String) : Except PyErr (List α) :=
  if x ∈ cats then
    Except.ok (cats.map (fun c => if c = x then (1 : α) else 0))
  else if handle_unknown = strHandleUnknownIgnore then
    Except.ok (cats.map (fun _ => (0 : α)))
  else Except.error (PyErr.valueError msgUnknownCategory)

/-- OneHotEncoder.transform of one row: the indicator blocks of every
categorical column, concatenated in column order. -/
def encodeRow [Zero α] [One α] (handle_unknown : String) :
    List (List String) → List String → Except PyErr (List α)
  | [], [] => Except.ok []
  | cats :: more, x :: xs => do
      let v ← oheEncode1 handle_unknown cats x
      let rest ← encodeRow handle_unknown more xs
      pure (v ++ rest)
  | _, _ => Except.error (PyErr.valueError msgShapeMismatch)

/-- A pandas column after schema-driven dtype casting: numeric or
categorical, with missing entries. -/
inductive PdCol (α : Type) where
  | nums (data : List (Option α))
  | strs (data : List (Option String))
  deriving DecidableEq

/-- A loaded pandas table: named columns in order. -/
structure DataFrame (α : Type) where
  cols : List (String × PdCol α)
  deriving DecidableEq, Inhabited

def DataFrame.nrows (df : DataFrame α) : Nat :=
  match df.cols with
  | [] => 0
  | (_, PdCol.nums d) :: _ => d.length
  | (_, PdCol.strs d) :: _ => d.length

def DataFrame.getCol (df : DataFrame α) (nm : String) :
    Except PyErr (PdCol α) :=
  match df.cols.find? (fun p => if p.1 = nm then true else false) with
  | some p => Except.ok p.2
  | none => Except.error (PyErr.keyError nm)

/-- pandas DataFrame.drop of one column name; a missing name is a
KeyError. -/
def DataFrame.dropCol (df : DataFrame α) (nm : String) :
    Except PyErr (DataFrame α) :=
  if df.cols.any (fun p => if p.1 = nm then true else false) then
    Except.ok (DataFrame.mk
      (df.cols.filter (fun p => if p.1 = nm then false else true)))
  else Except.error (PyErr.keyError nm)

/-- The target series as a numeric vector (np.array of the target column).
The rational-valued model requires the target entries to be present; a NaN
target would flow through numpy unchanged but is outside this model and
outside every claim. -/
def DataFrame.getTargetCol (df : DataFrame α) (nm : String) :
    Except PyErr (List α) := do
  match ← df.getCol nm with
  | PdCol.nums d =>
      optToExcept (PyErr.valueError msgMissingTarget) (mapMO id d)
  | PdCol.strs _ => Except.error (PyErr.valueError msgNonNumericColumn)

/-- ColumnTransformer routing of the numeric sub-table: the listed columns
in list order; a missing name is a KeyError and a categorical column under
a numeric name is a conversion error. -/
def selectNumCols (df : DataFrame α) (names : List String) :
    Except PyErr (List (List (Option α))) :=
  mapME (fun nm => do
    match ← df.getCol nm with
    | PdCol.nums d => pure d
    | PdCol.strs _ => Except.error (PyErr.valueError msgNonNumericColumn))
    names

/-- ColumnTransformer routing of the categorical sub-table. -/
def selectStrCols (df : DataFrame α) (names : List String) :
    Except PyErr (List (List (Option String))) :=
  mapME (fun nm => do
    match ← df.getCol nm with
    | PdCol.strs d => pure d
    | PdCol.nums _ => Except.error (PyErr.valueError msgNonStringColumn))
    names

/-- The learned state of the numeric branch pipeline of lines 98-103:
imputation statistics, the (stateless) FeatureGenerator, and the scaler
parameters. -/
structure FittedNumPipeline (α : Type) where
  statistics : List α
  fg : FeatureGenerator
  mean : List α
  scale : List α
  deriving DecidableEq, Inhabited

/-- The learned state of the categorical branch pipeline of lines 105-109:
imputation statistics, one-hot categories per column, and the scaler
scale (the scaler of this branch does not centre). -/
structure FittedCatPipeline (α : Type) where
  statistics : List String
  categories : List (List String)
  scale : List α
  deriving DecidableEq, Inhabited

/-- num_pipeline.fit_transform: median imputation, feature generation,
standard scaling, fitting every stage on the given training block. -/
def numPipelineFitTransform [LinearOrder α] [Add α] [Sub α] [Mul α] [Div α]
    [Zero α] [One α] [NatCast α] (sqrt : α → α) (fg : FeatureGenerator)
    (cols : List (List (Option α))) (nrows : Nat) :
    Except PyErr (FittedNumPipeline α × List (List α)) := do
  let stats ← mapME (fun cl => pyMedian (cl.filterMap id)) cols
  let imputed := List.zipWith (fun cl st => cl.map (fun o => o.getD st))
    cols stats
  let rows ← rowsFromCols imputed nrows
  let fgRows ← fg.transform rows
  let ncols := ((fgRows.head?).map List.length).getD 0
  let outCols ← colsFromRows fgRows ncols
  let means := outCols.map meanVal
  let scales := outCols.map (fun cl => handleZeros (sqrt (varVal cl)))
  let scaled ← scalerTransform true means scales fgRows
  pure (FittedNumPipeline.mk stats fg means scales, scaled)

/-- num_pipeline.transform with the learned state: impute with the train
statistics, generate features, scale with the train parameters; a column
count differing from fit is a shape error. -/
def numPipelineTransform [LinearOrder α] [Add α] [Sub α] [Mul α] [Div α]
    [Zero α] [One α] [NatCast α] (f : FittedNumPipeline α)
    (cols : List (List (Option α))) (nrows : Nat) :
    Except PyErr (List (List α)) := do
  if cols.length = f.statistics.length then
    let imputed := List.zipWith (fun cl st => cl.map (fun o => o.getD st))
      cols f.statistics
    let rows ← rowsFromCols imputed nrows
    let fgRows ← f.fg.transform rows
    scalerTransform true f.mean f.scale fgRows
  else Except.error (PyErr.valueError msgShapeMismatch)

/-- cat_pipeline.fit_transform: most-frequent imputation, one-hot encoding
with learned categories, scaling without centring. -/
def catPipelineFitTransform [LinearOrder α] [Add α] [Sub α] [Mul α] [Div α]
    [Zero α] [One α] [NatCast α] (sqrt : α → α) (ohe : OneHotEncoder)
    (cols : List (List (Option String))) (nrows : Nat) :
    Except PyErr (FittedCatPipeline α × List (List α)) := do
  let stats ← mapME (fun cl => pyMode (cl.filterMap id)) cols
  let imputed := List.zipWith (fun cl st => cl.map (fun o => o.getD st))
    cols stats
  let categories := imputed.map sortedUniqueStr
  let rows ← rowsFromCols imputed nrows
  let encRows ← mapME (fun r =>
    encodeRow (α := α) ohe.handle_unknown categories r) rows
  let ncols := ((encRows.head?).map List.length).getD 0
  let outCols ← colsFromRows encRows ncols
  let scales := outCols.map (fun cl => handleZeros (sqrt (varVal cl)))
  let scaled ← scalerTransform false [] scales encRows
  pure (FittedCatPipeline.mk stats categories scales, scaled)

/-- cat_pipeline.transform with the learned state: impute with the train
statistics, encode against the train categories (unknown categories follow
the handle_unknown policy), scale with the train scale. -/
def catPipelineTransform [LinearOrder α] [Add α] [Sub α] [Mul α] [Div α]
    [Zero α] [One α] [NatCast α] (ohe : OneHotEncoder)
    (f : FittedCatPipeline α) (cols : List (List (Option String)))
    (nrows : Nat) : Except PyErr (List (List α)) := do
  if cols.length = f.statistics.length then
    let imputed := List.zipWith (fun cl st => cl.map (fun o => o.getD st))
      cols f.statistics
    let rows ← rowsFromCols imputed nrows
    let encRows ← mapME (fun r =>
      encodeRow (α := α) ohe.handle_unknown f.categories r) rows
    scalerTransform false [] f.scale encRows
  else Except.error (PyErr.valueError msgShapeMismatch)

/-- The parsed schema file: the three fields read by the component under
the keys numerical_columns, categorical_columns and target_column. -/
structure DatasetSchema where
  numerical_columns : List String
  categorical_columns : List String
  target_column : String
  deriving DecidableEq, Inhabited

/-- The unfitted preprocessing object assembled by
get_data_transformer_object (lines 98-117): the two column lists routed to
the branches, the FeatureGenerator of the numeric branch, and the one-hot
encoder configuration of the categorical branch. -/
structure PreprocessingObject where
  numerical_columns : List String
  categorical_columns : List String
  fg : FeatureGenerator
  ohe : OneHotEncoder
  deriving DecidableEq, Inhabited

/-- The fitted ColumnTransformer persisted by the component. -/
structure FittedPreprocessing (α : Type) where
  numerical_columns : List String
  categorical_columns : List String
  ohe : OneHotEncoder
  num : FittedNumPipeline α
  cat : FittedCatPipeline α
  deriving DecidableEq, Inhabited

/-- DataTransformation.get_data_transformer_object (lines 87-122): read
the schema, build the numeric and categorical branch pipelines (the
FeatureGenerator is constructed with the bedrooms flag set and the numeric
column names for index resolution, the other index arguments left at their
defaults 3, 5, 6, 4), and combine them; any failure is wrapped into the
domain error. -/
def get_data_transformer_object
    (read_yaml_file : String → Except PyErr DatasetSchema)
    (schema_file_path : String) : Except PyErr PreprocessingObject :=
  (do
    let dataset_schema ← read_yaml_file schema_file_path
    let fg ← FeatureGenerator.init true 3 5 6 4
      (some dataset_schema.numerical_columns)
    pure (PreprocessingObject.mk dataset_schema.numerical_columns
      dataset_schema.categorical_columns fg oneHotEncoderDefault)
    : Except PyErr PreprocessingObject).mapError PyErr.housingError

/-- ColumnTransformer.fit_transform: route the two column subsets, fit and
transform each branch on the training inputs, concatenate the outputs
horizontally. -/
def PreprocessingObject.fit_transform [LinearOrder α] [Add α] [Sub α]
    [Mul α] [Div α] [Zero α] [One α] [NatCast α] (p : PreprocessingObject)
    (sqrt : α → α) (df : DataFrame α) :
    Except PyErr (FittedPreprocessing α × List (List α)) := do
  let numCols ← selectNumCols df p.numerical_columns
  let catCols ← selectStrCols df p.categorical_columns
  let n := df.nrows
  let numRes ← numPipelineFitTransform sqrt p.fg numCols n
  let catRes ← catPipelineFitTransform sqrt p.ohe catCols n
  pure (FittedPreprocessing.mk p.numerical_columns p.categorical_columns
    p.ohe numRes.1 catRes.1,
    List.zipWith (fun a b => a ++ b) numRes.2 catRes.2)

/-- ColumnTransformer.transform with the learned state: route the two
column subsets of the new table and apply the fitted branches. -/
def FittedPreprocessing.transform [LinearOrder α] [Add α] [Sub α] [Mul α]
    [Div α] [Zero α] [One α] [NatCast α] (f : FittedPreprocessing α)
    (df : DataFrame α) : Except PyErr (List (List α)) := do
  let numCols ← selectNumCols df f.numerical_columns
  let catCols ← selectStrCols df f.categorical_columns
  let n := df.nrows
  let numOut ← numPipelineTransform f.num numCols n
  let catOut ← catPipelineTransform f.ohe f.cat catCols n
  pure (List.zipWith (fun a b => a ++ b) numOut catOut)

/-- np.c_ of a matrix with one trailing column (lines 154-155); numpy
rejects mismatched row counts. -/
def npAppendCol (m : List (List α)) (v : List α) :
    Except PyErr (List (List α)) :=
  if m.length = v.length then
    Except.ok (List.zipWith (fun r x => r ++ [x]) m v)
  else Except.error (PyErr.valueError msgShapeMismatch)

/-- Index of the first occurrence of the pattern in the character list. -/
def findSub (old : List Char) : List Char → Option Nat
  | [] => if old = [] then some 0 else none
  | c :: rest =>
      if old.isPrefixOf (c :: rest) then some 0
      else (findSub old rest).map (fun i => i + 1)

/-- Python str.replace, fuel-bounded: replace the leftmost occurrence and
continue after it, which replaces every non-overlapping occurrence left to
right.  The fuel, one more than the string length, is never exhausted for
a non-empty pattern; the empty-pattern behaviour of Python (inserting the
replacement everywhere) is not used by the source. -/
def pyReplaceFuel (old new : List Char) : Nat → List Char → List Char
  | 0, s => s
  | fuel + 1, s =>
      match findSub old s with
      | none => s
      | some i =>
          List.take i s ++ new ++
            pyReplaceFuel old new fuel (List.drop (i + old.length) s)

def pyReplace (s old new : String) : String :=
  String.mk (pyReplaceFuel old.data new.data (s.data.length + 1) s.data)

def basenameAux : List Char → List Char → List Char
  | [], acc => acc.reverse
  | c :: rest, acc =>
      if c = '/' then basenameAux rest [] else basenameAux rest (c :: acc)

/-- os.path.basename for POSIX paths: everything after the last slash. -/
def osPathBasename (s : String) : String :=
  String.mk (basenameAux s.data [])

/-- os.path.join for POSIX paths, two components. -/
def osPathJoin (a b : String) : String :=
  if b.data.head? = some '/' then b
  else if a.data = [] then b
  else if a.data.getLast? = some '/' then a ++ b
  else a ++ "/" ++ b

/-- Modelled from the spec: the output-name derivation the spec describes,
replacing only the extension, so that a trailing .csv becomes .npz and
nothing else in the name changes. -/
def replaceExtWithNpz (name : String) : String :=
  if name.data.drop (name.data.length - 4) = strCsv.data then
    String.mk (name.data.take (name.data.length - 4) ++ strNpz.data)
  else name

/-- The configuration record of the component (only the fields the source
reads). -/
structure DataTransformationConfig where
  transformed_train_dir : String
  transformed_test_dir : String
  preprocessed_object_file_path : String
  deriving DecidableEq, Inhabited

structure DataIngestionArtifact where
  train_file_path : String
  test_file_path : String
  deriving DecidableEq, Inhabited

structure DataValidationArtifact where
  schema_file_path : String
  deriving DecidableEq, Inhabited

/-- The artifact record returned by initiate_data_tranformation
(lines 174-180). -/
structure DataTransformationArtifact where
  transformed_train_file_path : String
  transformed_test_file_path : String
  preprocessing_object_file_path : String
  is_transformed : Bool
  message : String
  deriving DecidableEq, Inhabited

/-- The external collaborators of the component, consumed through their
documented contracts: YAML schema reading, schema-aware CSV loading, and
the two savers. -/
structure Collaborators (α : Type) where
  read_yaml_file : String → Except PyErr DatasetSchema
  load_data : String → String → Except PyErr (DataFrame α)
  save_numpy_array_data : String → List (List α) → Except PyErr Unit
  save_object : String → FittedPreprocessing α → Except PyErr Unit

/-- The observable outcome of one successful run: the returned artifact
together with the two arrays and the fitted object that were written. -/
structure RunResult (α : Type) where
  artifact : DataTransformationArtifact
  train_arr : List (List α)
  test_arr : List (List α)
  preprocessing : FittedPreprocessing α
  deriving DecidableEq, Inhabited

/-- DataTransformation.initiate_data_tranformation (lines 125-185),
step by step in source order: build the transformer, load both tables,
re-read the schema for the target name, split inputs from target, fit on
the training inputs and transform the test inputs, append the target
column to each array, derive the output file names, save both arrays and
the fitted object, and return the artifact; any failure is wrapped into
the domain error. -/
def initiate_data_tranformation [LinearOrder α] [Add α] [Sub α] [Mul α]
    [Div α] [Zero α] [One α] [NatCast α] (sqrt : α → α)
    (C : Collaborators α) (data_transformation_config : DataTransformationConfig)
    (data_ingestion_artifact : DataIngestionArtifact)
    (data_validation_artifact : DataValidationArtifact) :
    Except PyErr (RunResult α) :=
  (do
    let preprocessing_obj ← get_data_transformer_object C.read_yaml_file
      data_validation_artifact.schema_file_path
    let train_file_path := data_ingestion_artifact.train_file_path
    let test_file_path := data_ingestion_artifact.test_file_path
    let schema_path := data_validation_artifact.schema_file_path
    let train_df ← C.load_data train_file_path schema_path
    let test_df ← C.load_data test_file_path schema_path
    let schema ← C.read_yaml_file schema_path
    let target_colname := schema.target_column
    let input_feauture_train ← train_df.dropCol target_colname
    let target_feature_train ← train_df.getTargetCol target_colname
    let input_feauture_test ← test_df.dropCol target_colname
    let target_feature_test ← test_df.getTargetCol target_colname
    let fitRes ← preprocessing_obj.fit_transform sqrt input_feauture_train
    let input_feature_test_arr ← fitRes.1.transform input_feauture_test
    let train_arr ← npAppendCol fitRes.2 target_feature_train
    let test_arr ← npAppendCol input_feature_test_arr target_feature_test
    let file_path_train_name := pyReplace (osPathBasename train_file_path)
      strCsv strNpz
    let file_path_test_name := pyReplace (osPathBasename test_file_path)
      strCsv strNpz
    let file_path_train := osPathJoin
      data_transformation_config.transformed_train_dir file_path_train_name
    let file_path_test := osPathJoin
      data_transformation_config.transformed_test_dir file_path_test_name
    let _ ← C.save_numpy_array_data file_path_train train_arr
    let _ ← C.save_numpy_array_data file_path_test test_arr
    let _ ← C.save_object
      data_transformation_config.preprocessed_object_file_path fitRes.1
    pure (RunResult.mk (DataTransformationArtifact.mk file_path_train
      file_path_test data_transformation_config.preprocessed_object_file_path
      true msgCompleted) train_arr test_arr fitRes.1)
    : Except PyErr (RunResult α)).mapError PyErr.housingError

/-!
Concrete fixtures used by witnesses and counterexamples.  The numeric type
is the integers, where the kernel evaluates every operation; the square
root parameter is the identity (its value is irrelevant to every claim).
-/

def idZ : ℤ → ℤ := fun q => q

def strOcean : String := "ocean"

def strY : String := "y"

def strA : String := "A"

def strB : String := "B"

def strC : String := "C"

def pathSchema : String := "config/schema.yaml"

def pathTrain : String := "dir/train.csv"

def pathTest : String := "dir/test.csv"

def pathTrainDouble : String := "dir/train.csv.csv"

def dirTrainOut : String := "transformed/train"

def dirTestOut : String := "transformed/test"

def pathObj : String := "transformed/preprocessed.pkl"

def strBoom : String := "disk failure"

def errBoom : PyErr := PyErr.ioError strBoom

def schemaEx : DatasetSchema :=
  DatasetSchema.mk [COLUMN_TOTAL_ROOMS, COLUMN_TOTAL_BEDROOM,
    COLUMN_POPULATION, COLUMN_HOUSEHOLDS] [strOcean] strY

def trainDfEx : DataFrame ℤ :=
  DataFrame.mk [
    (COLUMN_TOTAL_ROOMS, PdCol.nums [ some 4, some 8 ]),
    (COLUMN_TOTAL_BEDROOM, PdCol.nums [ some 2, some 4 ]),
    (COLUMN_POPULATION, PdCol.nums [ some 6, some 12 ]),
    (COLUMN_HOUSEHOLDS, PdCol.nums [ some 2, some 4 ]),
    (strOcean, PdCol.strs [ some strA, some strB ]),
    (strY, PdCol.nums [ some 1, some 2 ])]

def testDfEx : DataFrame ℤ :=
  DataFrame.mk [
    (COLUMN_TOTAL_ROOMS, PdCol.nums [ some 4 ]),
    (COLUMN_TOTAL_BEDROOM, PdCol.nums [ some 2 ]),
    (COLUMN_POPULATION, PdCol.nums [ some 6 ]),
    (COLUMN_HOUSEHOLDS, PdCol.nums [ some 2 ]),
    (strOcean, PdCol.strs [ some strA ]),
    (strY, PdCol.nums [ some 3 ])]

/-- A second test table differing from testDfEx only in its contents. -/
def testDf2Ex : DataFrame ℤ :=
  DataFrame.mk [
    (COLUMN_TOTAL_ROOMS, PdCol.nums [ some 8 ]),
    (COLUMN_TOTAL_BEDROOM, PdCol.nums [ some 2 ]),
    (COLUMN_POPULATION, PdCol.nums [ some 7 ]),
    (COLUMN_HOUSEHOLDS, PdCol.nums [ some 4 ]),
    (strOcean, PdCol.strs [ some strB ]),
    (strY, PdCol.nums [ some 5 ])]

/-- The training inputs (target column already removed). -/
def trainInputsEx : DataFrame ℤ :=
  DataFrame.mk [
    (COLUMN_TOTAL_ROOMS, PdCol.nums [ some 4, some 8 ]),
    (COLUMN_TOTAL_BEDROOM, PdCol.nums [ some 2, some 4 ]),
    (COLUMN_POPULATION, PdCol.nums [ some 6, some 12 ]),
    (COLUMN_HOUSEHOLDS, PdCol.nums [ some 2, some 4 ]),
    (strOcean, PdCol.strs [ some strA, some strB ])]

/-- Test inputs whose categorical value never occurs in the training
inputs. -/
def testUnseenInputsEx : DataFrame ℤ :=
  DataFrame.mk [
    (COLUMN_TOTAL_ROOMS, PdCol.nums [ some 4 ]),
    (COLUMN_TOTAL_BEDROOM, PdCol.nums [ some 2 ]),
    (COLUMN_POPULATION, PdCol.nums [ some 6 ]),
    (COLUMN_HOUSEHOLDS, PdCol.nums [ some 2 ]),
    (strOcean, PdCol.strs [ some strC ])]

def readYamlEx : String → Except PyErr DatasetSchema :=
  fun _ => Except.ok schemaEx

def loadEx : String → String → Except PyErr (DataFrame ℤ) :=
  fun p _ => if p = pathTrain then Except.ok trainDfEx else Except.ok testDfEx

def loadEx2 : String → String → Except PyErr (DataFrame ℤ) :=
  fun p _ =>
    if p = pathTrain then Except.ok trainDfEx else Except.ok testDf2Ex

def loadC8 : String → String → Except PyErr (DataFrame ℤ) :=
  fun p _ =>
    if p = pathTrainDouble then Except.ok trainDfEx else Except.ok testDfEx

def saveArrEx : String → List (List ℤ) → Except PyErr Unit :=
  fun _ _ => Except.ok ()

def saveObjEx : String → FittedPreprocessing ℤ → Except PyErr Unit :=
  fun _ _ => Except.ok ()

def collabA5 : Collaborators ℤ :=
  Collaborators.mk readYamlEx loadEx saveArrEx saveObjEx

def collabB5 : Collaborators ℤ :=
  Collaborators.mk readYamlEx loadEx2 saveArrEx saveObjEx

def collabC8 : Collaborators ℤ :=
  Collaborators.mk readYamlEx loadC8 saveArrEx saveObjEx

def cFailEx : Collaborators ℤ :=
  Collaborators.mk (fun _ => Except.error errBoom) loadEx saveArrEx saveObjEx

def cfgEx : DataTransformationConfig :=
  DataTransformationConfig.mk dirTrainOut dirTestOut pathObj

def ingEx : DataIngestionArtifact := DataIngestionArtifact.mk pathTrain pathTest

def ingC8 : DataIngestionArtifact :=
  DataIngestionArtifact.mk pathTrainDouble pathTest

def valEx : DataValidationArtifact := DataValidationArtifact.mk pathSchema

def c5resA : RunResult ℤ :=
  ((initiate_data_tranformation idZ collabA5 cfgEx ingEx valEx).toOption).getD
    default

def c5resB : RunResult ℤ :=
  ((initiate_data_tranformation idZ collabB5 cfgEx ingEx valEx).toOption).getD
    default

def c8res : RunResult ℤ :=
  ((initiate_data_tranformation idZ collabC8 cfgEx ingC8 valEx).toOption).getD
    default

def c8codePathLit : String := "transformed/train/train.npz.npz"

def c8specPathLit : String := "transformed/train/train.csv.npz"

/-- The combined transformer of the source, fitted on the training inputs
and applied with transform only to the unseen-category test inputs. -/
def c4run : Except PyErr (List (List ℤ)) :=
  (get_data_transformer_object readYamlEx pathSchema).bind
    (fun p => (p.fit_transform idZ trainInputsEx).bind
      (fun fr => fr.1.transform testUnseenInputsEx))

def c4fittedEx : FittedPreprocessing ℤ :=
  (((get_data_transformer_object readYamlEx pathSchema).bind
    (fun p => p.fit_transform idZ trainInputsEx)).toOption.map
      Prod.fst).getD default

/-!
General lemmas about the embedding, shared by the claim theorems.
-/

theorem mapError_ok_iff {ε ε2 β : Type} (f : ε → ε2) (x : Except ε β) (a : β) :
    x.mapError f = Except.ok a ↔ x = Except.ok a := by
  cases x <;> simp [Except.mapError]

theorem mapError_error_elim {ε ε2 β : Type} (f : ε → ε2) (x : Except ε β)
    (e : ε2) (h : x.mapError f = Except.error e) :
    ∃ c, e = f c ∧ x = Except.error c := by
  cases x with
  | ok a => simp [Except.mapError] at h
  | error c =>
      simp [Except.mapError] at h
      exact ⟨c, h.symm, rfl⟩

theorem npCol_ok_spec {α : Type} (ix : Nat) (X : List (List α))
    (h : ∀ row ∈ X, ix < row.length) :
    ∃ cl : List α, npCol X ix = Except.ok cl ∧ cl.length = X.length ∧
      ∀ (i : Nat) (row : List α), X[i]? = some row →
        ∃ x : α, row[ix]? = some x ∧ cl[i]? = some x := by
  induction X with
  | nil =>
      refine ⟨[], rfl, rfl, ?_⟩
      intro i row hrow
      simp at hrow
  | cons r rest ih =>
      have hr : ix < r.length := h r (List.mem_cons_self r rest)
      obtain ⟨cl, hcl, hlen, hget⟩ :=
        ih (fun row hrow => h row (List.mem_cons_of_mem _ hrow))
      refine ⟨r[ix] :: cl, ?_, by simp [hlen], ?_⟩
      · simp [npCol, List.getElem?_eq_getElem hr, hcl]
      · intro i row hrow
        cases i with
        | zero =>
            simp at hrow
            subst hrow
            exact ⟨r[ix], List.getElem?_eq_getElem hr, by simp⟩
        | succ n =>
            simp at hrow ⊢
            exact hget n row hrow

theorem zipWith_getElem_some {β γ δ : Type} (f : β → γ → δ) (l1 : List β) :
    ∀ (l2 : List γ) (i : Nat) (x : β) (y : γ), l1[i]? = some x →
      l2[i]? = some y → (List.zipWith f l1 l2)[i]? = some (f x y) := by
  induction l1 with
  | nil =>
      intro l2 i x y h1 h2
      simp at h1
  | cons a l1 ih =>
      intro l2 i x y h1 h2
      cases l2 with
      | nil => simp at h2
      | cons b l2 =>
          cases i with
          | zero =>
              simp at h1 h2
              subst h1
              subst h2
              simp
          | succ n =>
              simp at h1 h2 ⊢
              exact ih l2 n x y h1 h2

theorem npC3_spec {α : Type} (X : List (List α)) :
    ∀ (a b d : List α), a.length = X.length → b.length = X.length →
      d.length = X.length →
      (npC3 X a b d).length = X.length ∧
      ∀ (i : Nat) (row : List α), X[i]? = some row →
        ∃ x y z : α, a[i]? = some x ∧ b[i]? = some y ∧ d[i]? = some z ∧
          (npC3 X a b d)[i]? = some (row ++ [x, y, z]) := by
  induction X with
  | nil =>
      intro a b d ha hb hd
      refine ⟨by simp [npC3, List.length_eq_zero.mp ha,
        List.length_eq_zero.mp hb, List.length_eq_zero.mp hd], ?_⟩
      intro i row hrow
      simp at hrow
  | cons r rest ih =>
      intro a b d ha hb hd
      cases a with
      | nil => simp at ha
      | cons x xs =>
      cases b with
      | nil => simp at hb
      | cons y ys =>
      cases d with
      | nil => simp at hd
      | cons z zs =>
      obtain ⟨ihlen, ihget⟩ := ih xs ys zs (by simpa using ha)
        (by simpa using hb) (by simpa using hd)
      refine ⟨by simp [npC3, ihlen], ?_⟩
      intro i row hrow
      cases i with
      | zero =>
          simp at hrow
          subst hrow
          exact ⟨x, y, z, by simp, by simp, by simp, by simp [npC3]⟩
      | succ n =>
          simp only [List.getElem?_cons_succ] at hrow
          obtain ⟨x2, y2, z2, h1, h2, h3, h4⟩ := ihget n row hrow
          refine ⟨x2, y2, z2, ?_, ?_, ?_, ?_⟩
          · simpa using h1
          · simpa using h2
          · simpa using h3
          · simpa [npC3] using h4

theorem npC2_spec {α : Type} (X : List (List α)) :
    ∀ (a b : List α), a.length = X.length → b.length = X.length →
      (npC2 X a b).length = X.length ∧
      ∀ (i : Nat) (row : List α), X[i]? = some row →
        ∃ x y : α, a[i]? = some x ∧ b[i]? = some y ∧
          (npC2 X a b)[i]? = some (row ++ [x, y]) := by
  induction X with
  | nil =>
      intro a b ha hb
      refine ⟨by simp [npC2, List.length_eq_zero.mp ha,
        List.length_eq_zero.mp hb], ?_⟩
      intro i row hrow
      simp at hrow
  | cons r rest ih =>
      intro a b ha hb
      cases a with
      | nil => simp at ha
      | cons x xs =>
      cases b with
      | nil => simp at hb
      | cons y ys =>
      obtain ⟨ihlen, ihget⟩ := ih xs ys (by simpa using ha) (by simpa using hb)
      refine ⟨by simp [npC2, ihlen], ?_⟩
      intro i row hrow
      cases i with
      | zero =>
          simp at hrow
          subst hrow
          exact ⟨x, y, by simp, by simp, by simp [npC2]⟩
      | succ n =>
          simp only [List.getElem?_cons_succ] at hrow
          obtain ⟨x2, y2, h1, h2, h3⟩ := ihget n row hrow
          refine ⟨x2, y2, ?_, ?_, ?_⟩
          · simpa using h1
          · simpa using h2
          · simpa [npC2] using h3

/-- The behaviour of FeatureGenerator.transform on a rectangular matrix
whose used column indices are in bounds: it succeeds, keeps the row count,
and every output row is the input row with the derived ratios appended. -/
theorem transform_ok_spec {α : Type} [Div α] (fg : FeatureGenerator)
    (X : List (List α)) (c : Nat)
    (hrect : ∀ row ∈ X, row.length = c)
    (htr : fg.total_rooms_ix < c) (hpop : fg.population_ix < c)
    (hhh : fg.households_ix < c)
    (htb : fg.add_bedrooms_per_room = true → fg.total_bedrooms_ix < c) :
    ∃ Y : List (List α), fg.transform X = Except.ok Y ∧ Y.length = X.length ∧
      ∀ (i : Nat) (row : List α), X[i]? = some row →
        ∃ tr pop hh : α, row[fg.total_rooms_ix]? = some tr ∧
          row[fg.population_ix]? = some pop ∧
          row[fg.households_ix]? = some hh ∧
          ((fg.add_bedrooms_per_room = true →
             ∃ tb : α, row[fg.total_bedrooms_ix]? = some tb ∧
               Y[i]? = some (row ++ [tr / hh, pop / hh, tb / tr])) ∧
           (fg.add_bedrooms_per_room = false →
             Y[i]? = some (row ++ [tr / hh, pop / hh]))) := by
  obtain ⟨trc, htrc, htrlen, htrget⟩ := npCol_ok_spec fg.total_rooms_ix X
    (fun row h => hrect row h ▸ htr)
  obtain ⟨hhc, hhhc, hhhlen, hhhget⟩ := npCol_ok_spec fg.households_ix X
    (fun row h => hrect row h ▸ hhh)
  obtain ⟨popc, hpopc, hpoplen, hpopget⟩ := npCol_ok_spec fg.population_ix X
    (fun row h => hrect row h ▸ hpop)
  cases hflag : fg.add_bedrooms_per_room with
  | true =>
      obtain ⟨tbc, htbc, htblen, htbget⟩ := npCol_ok_spec fg.total_bedrooms_ix
        X (fun row h => hrect row h ▸ htb hflag)
      obtain ⟨hYlen, hYget⟩ := npC3_spec X
        (List.zipWith (fun a b => a / b) trc hhc)
        (List.zipWith (fun a b => a / b) popc hhc)
        (List.zipWith (fun a b => a / b) tbc trc)
        (by simp [List.length_zipWith, htrlen, hhhlen])
        (by simp [List.length_zipWith, hpoplen, hhhlen])
        (by simp [List.length_zipWith, htblen, htrlen])
      refine ⟨_, ?_, hYlen, ?_⟩
      · simp [FeatureGenerator.transform, htrc, hhhc, hpopc, htbc, hflag,
          Except.mapError, Except.bind, Except.pure, bind, pure]
      · intro i row hrow
        obtain ⟨tr, htr1, htr2⟩ := htrget i row hrow
        obtain ⟨pop, hpop1, hpop2⟩ := hpopget i row hrow
        obtain ⟨hh, hhh1, hhh2⟩ := hhhget i row hrow
        obtain ⟨tb, htb1, htb2⟩ := htbget i row hrow
        refine ⟨tr, pop, hh, htr1, hpop1, hhh1, ?_, ?_⟩
        · intro _
          refine ⟨tb, htb1, ?_⟩
          obtain ⟨x, y, z, hx, hy, hz, hY⟩ := hYget i row hrow
          have hx2 := zipWith_getElem_some (fun a b => a / b) trc hhc i tr hh
            htr2 hhh2
          have hy2 := zipWith_getElem_some (fun a b => a / b) popc hhc i pop
            hh hpop2 hhh2
          have hz2 := zipWith_getElem_some (fun a b => a / b) tbc trc i tb tr
            htb2 htr2
          rw [hx2] at hx
          rw [hy2] at hy
          rw [hz2] at hz
          simp at hx hy hz
          rw [hY, hx, hy, hz]
        · intro hcontra
          simp [hflag] at hcontra
  | false =>
      obtain ⟨hYlen, hYget⟩ := npC2_spec X
        (List.zipWith (fun a b => a / b) trc hhc)
        (List.zipWith (fun a b => a / b) popc hhc)
        (by simp [List.length_zipWith, htrlen, hhhlen])
        (by simp [List.length_zipWith, hpoplen, hhhlen])
      refine ⟨_, ?_, hYlen, ?_⟩
      · simp [FeatureGenerator.transform, htrc, hhhc, hpopc, hflag,
          Except.mapError, Except.bind, Except.pure, bind, pure]
      · intro i row hrow
        obtain ⟨tr, htr1, htr2⟩ := htrget i row hrow
        obtain ⟨pop, hpop1, hpop2⟩ := hpopget i row hrow
        obtain ⟨hh, hhh1, hhh2⟩ := hhhget i row hrow
        refine ⟨tr, pop, hh, htr1, hpop1, hhh1, ?_, ?_⟩
        · intro hcontra
          simp [hflag] at hcontra
        · intro _
          obtain ⟨x, y, hx, hy, hY⟩ := hYget i row hrow
          have hx2 := zipWith_getElem_some (fun a b => a / b) trc hhc i tr hh
            htr2 hhh2
          have hy2 := zipWith_getElem_some (fun a b => a / b) popc hhc i pop
            hh hpop2 hhh2
          rw [hx2] at hx
          rw [hy2] at hy
          simp at hx hy
          rw [hY, hx, hy]

theorem npCol_ok_get {α : Type} (ix : Nat) (X : List (List α)) :
    ∀ cl : List α, npCol X ix = Except.ok cl →
      cl.length = X.length ∧
      ∀ (i : Nat) (row : List α), X[i]? = some row →
        ∃ x : α, row[ix]? = some x ∧ cl[i]? = some x := by
  induction X with
  | nil =>
      intro cl h
      simp [npCol] at h
      subst h
      refine ⟨rfl, ?_⟩
      intro i row hrow
      simp at hrow
  | cons r rest ih =>
      intro cl h
      cases hr : r[ix]? with
      | none => simp [npCol, hr] at h
      | some x =>
          cases hrest : npCol rest ix with
          | error e =>
              simp [npCol, hr, hrest, Except.bind, Except.pure, bind, pure]
                at h
          | ok cl2 =>
              simp [npCol, hr, hrest, Except.bind, Except.pure, bind, pure]
                at h
              obtain ⟨hlen2, hget2⟩ := ih cl2 hrest
              subst h
              refine ⟨by simp [hlen2], ?_⟩
              intro i row hrow
              cases i with
              | zero =>
                  simp at hrow
                  subst hrow
                  exact ⟨x, hr, by simp⟩
              | succ n =>
                  simp at hrow ⊢
                  exact hget2 n row hrow

/-- Structure of any successful FeatureGenerator.transform call: the three
or four extracted columns succeeded and the result is the np.c_
concatenation the source builds. -/
theorem transform_eq_ok_elim {α : Type} [Div α] (fg : FeatureGenerator)
    (X Y : List (List α)) (h : fg.transform X = Except.ok Y) :
    ∃ trc hhc popc : List α,
      npCol X fg.total_rooms_ix = Except.ok trc ∧
      npCol X fg.households_ix = Except.ok hhc ∧
      npCol X fg.population_ix = Except.ok popc ∧
      ((fg.add_bedrooms_per_room = true ∧
         ∃ tbc : List α, npCol X fg.total_bedrooms_ix = Except.ok tbc ∧
           Y = npC3 X (List.zipWith (fun a b => a / b) trc hhc)
             (List.zipWith (fun a b => a / b) popc hhc)
             (List.zipWith (fun a b => a / b) tbc trc)) ∨
       (fg.add_bedrooms_per_room = false ∧
         Y = npC2 X (List.zipWith (fun a b => a / b) trc hhc)
           (List.zipWith (fun a b => a / b) popc hhc))) := by
  unfold FeatureGenerator.transform at h
  rw [mapError_ok_iff] at h
  cases htrc : npCol X fg.total_rooms_ix with
  | error e => simp [htrc, Except.bind, bind] at h
  | ok trc =>
  cases hhhc : npCol X fg.households_ix with
  | error e => simp [htrc, hhhc, Except.bind, bind] at h
  | ok hhc =>
  cases hpopc : npCol X fg.population_ix with
  | error e => simp [htrc, hhhc, hpopc, Except.bind, bind] at h
  | ok popc =>
  cases hflag : fg.add_bedrooms_per_room with
  | true =>
      cases htbc : npCol X fg.total_bedrooms_ix with
      | error e =>
          simp [htrc, hhhc, hpopc, htbc, hflag, Except.bind, bind,
            Except.pure, pure] at h
      | ok tbc =>
          simp [htrc, hhhc, hpopc, htbc, hflag, Except.bind, bind,
            Except.pure, pure] at h
          exact ⟨trc, hhc, popc, rfl, rfl, rfl,
            Or.inl ⟨rfl, tbc, rfl, h.symm⟩⟩
  | false =>
      simp [htrc, hhhc, hpopc, hflag, Except.bind, bind, Except.pure,
        pure] at h
      exact ⟨trc, hhc, popc, rfl, rfl, rfl, Or.inr ⟨rfl, h.symm⟩⟩

/-!
The claim theorems about FeatureGenerator.
-/

/-- Claim C1: for every numeric matrix given to FeatureGenerator.transform
and every row of it, the appended rooms_per_household entry is the
total-rooms entry divided by the households entry and the appended
population_per_household entry is the population entry divided by the
households entry, exactly (the entries here are exact rationals), for a
non-zero households entry; and with add_bedrooms_per_room set the appended
bedrooms_per_room entry is the total-bedrooms entry divided by the
total-rooms entry. -/
theorem c1_ratio_features (fg : FeatureGenerator) (X Y : List (List ℚ))
    (i : Nat) (row : List ℚ) (tr pop hh tb : ℚ)
    (htrans : fg.transform X = Except.ok Y)
    (hrow : X[i]? = some row)
    (htr : row[fg.total_rooms_ix]? = some tr)
    (hpop : row[fg.population_ix]? = some pop)
    (hhh : row[fg.households_ix]? = some hh)
    (htb : fg.add_bedrooms_per_room = true →
      row[fg.total_bedrooms_ix]? = some tb)
    (hhh0 : hh ≠ 0) :
    Y[i]? = some (row ++
      (if fg.add_bedrooms_per_room then [tr / hh, pop / hh, tb / tr]
       else [tr / hh, pop / hh])) := by
  obtain ⟨trc, hhc, popc, htrc, hhhc, hpopc, hcase⟩ :=
    transform_eq_ok_elim fg X Y htrans
  obtain ⟨htrlen, htrget⟩ := npCol_ok_get fg.total_rooms_ix X trc htrc
  obtain ⟨hhhlen, hhhget⟩ := npCol_ok_get fg.households_ix X hhc hhhc
  obtain ⟨hpoplen, hpopget⟩ := npCol_ok_get fg.population_ix X popc hpopc
  obtain ⟨tr2, htr2a, htr2b⟩ := htrget i row hrow
  obtain ⟨hh2, hhh2a, hhh2b⟩ := hhhget i row hrow
  obtain ⟨pop2, hpop2a, hpop2b⟩ := hpopget i row hrow
  rw [htr] at htr2a
  rw [hhh] at hhh2a
  rw [hpop] at hpop2a
  cases htr2a
  cases hhh2a
  cases hpop2a
  cases hcase with
  | inl hbed =>
      obtain ⟨hflag, tbc, htbc, hY⟩ := hbed
      obtain ⟨htblen, htbget⟩ := npCol_ok_get fg.total_bedrooms_ix X tbc htbc
      obtain ⟨tb2, htb2a, htb2b⟩ := htbget i row hrow
      rw [htb hflag] at htb2a
      cases htb2a
      obtain ⟨_, hget⟩ := npC3_spec X
        (List.zipWith (fun a b => a / b) trc hhc)
        (List.zipWith (fun a b => a / b) popc hhc)
        (List.zipWith (fun a b => a / b) tbc trc)
        (by simp [List.length_zipWith, htrlen, hhhlen])
        (by simp [List.length_zipWith, hpoplen, hhhlen])
        (by simp [List.length_zipWith, htblen, htrlen])
      obtain ⟨x, y, z, hx, hy, hz, hYI⟩ := hget i row hrow
      rw [zipWith_getElem_some (fun a b => a / b) trc hhc i tr hh htr2b
        hhh2b] at hx
      rw [zipWith_getElem_some (fun a b => a / b) popc hhc i pop hh hpop2b
        hhh2b] at hy
      rw [zipWith_getElem_some (fun a b => a / b) tbc trc i tb tr htb2b
        htr2b] at hz
      cases hx
      cases hy
      cases hz
      rw [hY, hYI, hflag]
      simp
  | inr hnobed =>
      obtain ⟨hflag, hY⟩ := hnobed
      obtain ⟨_, hget⟩ := npC2_spec X
        (List.zipWith (fun a b => a / b) trc hhc)
        (List.zipWith (fun a b => a / b) popc hhc)
        (by simp [List.length_zipWith, htrlen, hhhlen])
        (by simp [List.length_zipWith, hpoplen, hhhlen])
      obtain ⟨x, y, hx, hy, hYI⟩ := hget i row hrow
      rw [zipWith_getElem_some (fun a b => a / b) trc hhc i tr hh htr2b
        hhh2b] at hx
      rw [zipWith_getElem_some (fun a b => a / b) popc hhc i pop hh hpop2b
        hhh2b] at hy
      cases hx
      cases hy
      rw [hY, hYI, hflag]
      simp

/-- Witness for C1 at a concrete one-row rational matrix using the default
indices: row [0, 0, 0, 8, 4, 20, 2] has total_rooms 8, total_bedrooms 4,
population 20, households 2. -/
theorem c1_ratio_features_witness :
    (FeatureGenerator.mk none true 3 5 6 4).transform
        [[(0 : ℚ), 0, 0, 8, 4, 20, 2]] =
      Except.ok [[(0 : ℚ), 0, 0, 8, 4, 20, 2, 8 / 2, 20 / 2, 4 / 8]] ∧
    (2 : ℚ) ≠ 0 ∧
    ([[(0 : ℚ), 0, 0, 8, 4, 20, 2, 8 / 2, 20 / 2, 4 / 8]] :
        List (List ℚ))[0]? =
      some ([(0 : ℚ), 0, 0, 8, 4, 20, 2] ++
        (if (FeatureGenerator.mk none true 3 5 6 4).add_bedrooms_per_room
         then [8 / 2, 20 / 2, 4 / 8] else [8 / 2, 20 / 2])) :=
  ⟨rfl, by decide,
    c1_ratio_features (FeatureGenerator.mk none true 3 5 6 4)
      [[(0 : ℚ), 0, 0, 8, 4, 20, 2]]
      [[(0 : ℚ), 0, 0, 8, 4, 20, 2, 8 / 2, 20 / 2, 4 / 8]]
      0 [(0 : ℚ), 0, 0, 8, 4, 20, 2] 8 20 2 4 rfl rfl rfl rfl rfl
      (fun _ => rfl) (by decide)⟩

/-- Claim C2: on a rectangular matrix with c columns whose used indices
are in bounds, transform returns a matrix with the same number of rows and
c + 3 columns when add_bedrooms_per_room is true, c + 2 when false. -/
theorem c2_output_shape {α : Type} [Div α] (fg : FeatureGenerator)
    (X : List (List α)) (c : Nat)
    (hrect : ∀ row ∈ X, row.length = c)
    (htr : fg.total_rooms_ix < c) (hpop : fg.population_ix < c)
    (hhh : fg.households_ix < c)
    (htb : fg.add_bedrooms_per_room = true → fg.total_bedrooms_ix < c) :
    ∃ Y : List (List α), fg.transform X = Except.ok Y ∧
      Y.length = X.length ∧
      ∀ row2 ∈ Y, row2.length =
        c + (if fg.add_bedrooms_per_room then 3 else 2) := by
  obtain ⟨Y, hok, hlen, hget⟩ := transform_ok_spec fg X c hrect htr hpop hhh
    htb
  refine ⟨Y, hok, hlen, ?_⟩
  intro row2 hmem
  obtain ⟨i, hi, he⟩ := List.getElem_of_mem hmem
  have hYi : Y[i]? = some row2 := by
    rw [List.getElem?_eq_getElem hi, he]
  have hiX : i < X.length := by rw [← hlen]; exact hi
  have hXi : X[i]? = some X[i] := List.getElem?_eq_getElem hiX
  obtain ⟨tr, pop, hh, _, _, _, hbed, hnobed⟩ := hget i X[i] hXi
  have hrowlen : (X[i]).length = c := hrect X[i] (List.getElem_mem hiX)
  cases hflag : fg.add_bedrooms_per_room with
  | true =>
      obtain ⟨tb, _, hYi2⟩ := hbed hflag
      rw [hYi] at hYi2
      cases hYi2
      simp [hflag, hrowlen]
  | false =>
      have hYi2 := hnobed hflag
      rw [hYi] at hYi2
      cases hYi2
      simp [hflag, hrowlen]

/-- Witness for C2 at the concrete C1 matrix: one row, seven columns,
ten output columns. -/
theorem c2_output_shape_witness :
    (∀ row ∈ [[(0 : ℚ), 0, 0, 8, 4, 20, 2]], row.length = 7) ∧
    ∃ Y : List (List ℚ),
      (FeatureGenerator.mk none true 3 5 6 4).transform
        [[(0 : ℚ), 0, 0, 8, 4, 20, 2]] = Except.ok Y ∧
      Y.length = [[(0 : ℚ), 0, 0, 8, 4, 20, 2]].length ∧
      ∀ row2 ∈ Y, row2.length = 7 +
        (if (FeatureGenerator.mk none true 3 5 6 4).add_bedrooms_per_room
         then 3 else 2) :=
  ⟨by simp,
    c2_output_shape (FeatureGenerator.mk none true 3 5 6 4)
      [[(0 : ℚ), 0, 0, 8, 4, 20, 2]] 7 (by simp) (by decide) (by decide)
      (by decide) (fun _ => by decide)⟩

theorem fval_div_by_fin_zero_not_finite {α : Type} [LinearOrder α] [Zero α]
    [Div α] (v : FVal α) : (v / FVal.fin 0).isFinite = false := by
  cases v with
  | fin a =>
      show (FVal.div (FVal.fin a) (FVal.fin 0)).isFinite = false
      simp only [FVal.div, if_pos rfl]
      by_cases h : a = 0
      · simp [h, FVal.isFinite]
      · by_cases h2 : 0 < a
        · simp [h, h2, FVal.isFinite]
        · simp [h, h2, FVal.isFinite]
  | inf =>
      show (FVal.div FVal.inf (FVal.fin 0)).isFinite = false
      simp [FVal.div, FVal.isFinite]
  | neginf =>
      show (FVal.div FVal.neginf (FVal.fin 0)).isFinite = false
      simp [FVal.div, FVal.isFinite]
  | nan =>
      show (FVal.div FVal.nan (FVal.fin 0)).isFinite = false
      simp [FVal.div, FVal.isFinite]

theorem fval_div_fin_fin {α : Type} [LinearOrder α] [Zero α] [Div α]
    (a b : α) (h : b ≠ 0) :
    (FVal.fin a / FVal.fin b) = FVal.fin (a / b) := by
  show FVal.div (FVal.fin a) (FVal.fin b) = FVal.fin (a / b)
  simp [FVal.div, h]

/-- Claim C6: on a rectangular float matrix whose used indices are in
bounds, transform never raises; in a row whose households entry is zero
the two household ratios are infinities or NaN per IEEE semantics (and
with the flag set, a zero total-rooms entry makes bedrooms_per_room
non-finite), while a row with a non-zero finite households entry gets the
ordinary finite quotient. -/
theorem c6_division_by_zero_defined {α : Type} [LinearOrder α] [Zero α]
    [Div α] (fg : FeatureGenerator) (X : List (List (FVal α))) (c : Nat)
    (hrect : ∀ row ∈ X, row.length = c)
    (htr : fg.total_rooms_ix < c) (hpop : fg.population_ix < c)
    (hhh : fg.households_ix < c)
    (htb : fg.add_bedrooms_per_room = true → fg.total_bedrooms_ix < c) :
    ∃ Y : List (List (FVal α)), fg.transform X = Except.ok Y ∧
      ∀ (i : Nat) (row : List (FVal α)), X[i]? = some row →
        ∃ tr pop hh : FVal α,
          row[fg.total_rooms_ix]? = some tr ∧
          row[fg.population_ix]? = some pop ∧
          row[fg.households_ix]? = some hh ∧
          ∃ yrow : List (FVal α), Y[i]? = some yrow ∧
            yrow[c]? = some (tr / hh) ∧
            yrow[c + 1]? = some (pop / hh) ∧
            (hh = FVal.fin 0 → (tr / hh).isFinite = false ∧
              (pop / hh).isFinite = false) ∧
            (∀ a b : α, tr = FVal.fin a → hh = FVal.fin b → b ≠ 0 →
              tr / hh = FVal.fin (a / b)) ∧
            (fg.add_bedrooms_per_room = true →
              ∃ tb : FVal α, row[fg.total_bedrooms_ix]? = some tb ∧
                yrow[c + 2]? = some (tb / tr) ∧
                (tr = FVal.fin 0 → (tb / tr).isFinite = false)) := by
  obtain ⟨Y, hok, hlen, hget⟩ := transform_ok_spec fg X c hrect htr hpop hhh
    htb
  refine ⟨Y, hok, ?_⟩
  intro i row hrow
  obtain ⟨tr, pop, hh, htr1, hpop1, hhh1, hbed, hnobed⟩ := hget i row hrow
  have hrowmem : row ∈ X := by
    have h2 := List.getElem?_eq_some.mp hrow
    obtain ⟨hlt, he⟩ := h2
    exact he ▸ List.getElem_mem hlt
  have hrowlen : row.length = c := hrect row hrowmem
  cases hflag : fg.add_bedrooms_per_room with
  | true =>
      obtain ⟨tb, htb1, hYi⟩ := hbed hflag
      refine ⟨tr, pop, hh, htr1, hpop1, hhh1,
        row ++ [tr / hh, pop / hh, tb / tr], hYi, ?_, ?_, ?_, ?_, ?_⟩
      · rw [List.getElem?_append_right (by rw [hrowlen])]
        simp [hrowlen]
      · rw [List.getElem?_append_right (by rw [hrowlen]; exact Nat.le_succ c)]
        simp [hrowlen]
      · intro h0
        subst h0
        exact ⟨fval_div_by_fin_zero_not_finite tr,
          fval_div_by_fin_zero_not_finite pop⟩
      · intro a b ha hb hb0
        subst ha
        subst hb
        exact fval_div_fin_fin a b hb0
      · intro _
        refine ⟨tb, htb1, ?_, ?_⟩
        · rw [List.getElem?_append_right
            (by rw [hrowlen]; exact Nat.le_add_right c 2)]
          simp [hrowlen]
        · intro h0
          subst h0
          exact fval_div_by_fin_zero_not_finite tb
  | false =>
      have hYi := hnobed hflag
      refine ⟨tr, pop, hh, htr1, hpop1, hhh1,
        row ++ [tr / hh, pop / hh], hYi, ?_, ?_, ?_, ?_, ?_⟩
      · rw [List.getElem?_append_right (by rw [hrowlen])]
        simp [hrowlen]
      · rw [List.getElem?_append_right (by rw [hrowlen]; exact Nat.le_succ c)]
        simp [hrowlen]
      · intro h0
        subst h0
        exact ⟨fval_div_by_fin_zero_not_finite tr,
          fval_div_by_fin_zero_not_finite pop⟩
      · intro a b ha hb hb0
        subst ha
        subst hb
        exact fval_div_fin_fin a b hb0
      · intro hcontra
        simp [hflag] at hcontra

/-- Witness for C6 at a concrete one-row integer float matrix whose
households entry (index 6) is zero. -/
theorem c6_division_by_zero_defined_witness :
    (∀ row ∈ [[FVal.fin (0 : ℤ), FVal.fin 0, FVal.fin 0, FVal.fin 8,
        FVal.fin 4, FVal.fin 20, FVal.fin 0]], row.length = 7) ∧
    ∃ Y : List (List (FVal ℤ)),
      (FeatureGenerator.mk none true 3 5 6 4).transform
        [[FVal.fin (0 : ℤ), FVal.fin 0, FVal.fin 0, FVal.fin 8, FVal.fin 4,
          FVal.fin 20, FVal.fin 0]] = Except.ok Y ∧
      ∀ (i : Nat) (row : List (FVal ℤ)),
        [[FVal.fin (0 : ℤ), FVal.fin 0, FVal.fin 0, FVal.fin 8, FVal.fin 4,
          FVal.fin 20, FVal.fin 0]][i]? = some row →
        ∃ tr pop hh : FVal ℤ,
          row[(FeatureGenerator.mk none true 3 5 6 4).total_rooms_ix]? =
            some tr ∧
          row[(FeatureGenerator.mk none true 3 5 6 4).population_ix]? =
            some pop ∧
          row[(FeatureGenerator.mk none true 3 5 6 4).households_ix]? =
            some hh ∧
          ∃ yrow : List (FVal ℤ), Y[i]? = some yrow ∧
            yrow[7]? = some (tr / hh) ∧
            yrow[7 + 1]? = some (pop / hh) ∧
            (hh = FVal.fin 0 → (tr / hh).isFinite = false ∧
              (pop / hh).isFinite = false) ∧
            (∀ a b : ℤ, tr = FVal.fin a → hh = FVal.fin b → b ≠ 0 →
              tr / hh = FVal.fin (a / b)) ∧
            ((FeatureGenerator.mk none true 3 5 6 4).add_bedrooms_per_room =
                true →
              ∃ tb : FVal ℤ,
                row[(FeatureGenerator.mk none true 3 5
                  6 4).total_bedrooms_ix]? = some tb ∧
                yrow[7 + 2]? = some (tb / tr) ∧
                (tr = FVal.fin 0 → (tb / tr).isFinite = false)) :=
  ⟨by simp,
    c6_division_by_zero_defined (FeatureGenerator.mk none true 3 5 6 4)
      [[FVal.fin (0 : ℤ), FVal.fin 0, FVal.fin 0, FVal.fin 8, FVal.fin 4,
        FVal.fin 20, FVal.fin 0]] 7 (by simp) (by decide) (by decide)
      (by decide) (fun _ => by decide)⟩

/-- Claim C7: transform returns a new matrix in which every row begins
with exactly the corresponding input row, in order, followed by the 2 or 3
derived entries; the input matrix itself is a pure value in this embedding
and is returned untouched as the prefix of each output row. -/
theorem c7_frame_preserves_input {α : Type} [Div α] (fg : FeatureGenerator)
    (X : List (List α)) (c : Nat)
    (hrect : ∀ row ∈ X, row.length = c)
    (htr : fg.total_rooms_ix < c) (hpop : fg.population_ix < c)
    (hhh : fg.households_ix < c)
    (htb : fg.add_bedrooms_per_room = true → fg.total_bedrooms_ix < c) :
    ∃ Y : List (List α), fg.transform X = Except.ok Y ∧
      Y.length = X.length ∧
      ∀ (i : Nat) (row : List α), X[i]? = some row →
        ∃ extra : List α, Y[i]? = some (row ++ extra) ∧
          extra.length = (if fg.add_bedrooms_per_room then 3 else 2) ∧
          (row ++ extra).take row.length = row := by
  obtain ⟨Y, hok, hlen, hget⟩ := transform_ok_spec fg X c hrect htr hpop hhh
    htb
  refine ⟨Y, hok, hlen, ?_⟩
  intro i row hrow
  obtain ⟨tr, pop, hh, _, _, _, hbed, hnobed⟩ := hget i row hrow
  cases hflag : fg.add_bedrooms_per_room with
  | true =>
      obtain ⟨tb, _, hYi⟩ := hbed hflag
      exact ⟨[tr / hh, pop / hh, tb / tr], hYi, by simp [hflag],
        by simp [List.take_left]⟩
  | false =>
      exact ⟨[tr / hh, pop / hh], hnobed hflag, by simp [hflag],
        by simp [List.take_left]⟩

/-- Witness for C7 at the concrete C1 matrix. -/
theorem c7_frame_preserves_input_witness :
    (∀ row ∈ [[(0 : ℚ), 0, 0, 8, 4, 20, 2]], row.length = 7) ∧
    ∃ Y : List (List ℚ),
      (FeatureGenerator.mk none true 3 5 6 4).transform
        [[(0 : ℚ), 0, 0, 8, 4, 20, 2]] = Except.ok Y ∧
      Y.length = [[(0 : ℚ), 0, 0, 8, 4, 20, 2]].length ∧
      ∀ (i : Nat) (row : List ℚ),
        [[(0 : ℚ), 0, 0, 8, 4, 20, 2]][i]? = some row →
        ∃ extra : List ℚ, Y[i]? = some (row ++ extra) ∧
          extra.length =
            (if (FeatureGenerator.mk none true 3 5
              6 4).add_bedrooms_per_room then 3 else 2) ∧
          (row ++ extra).take row.length = row :=
  ⟨by simp,
    c7_frame_preserves_input (FeatureGenerator.mk none true 3 5 6 4)
      [[(0 : ℚ), 0, 0, 8, 4, 20, 2]] 7 (by simp) (by decide) (by decide)
      (by decide) (fun _ => by decide)⟩

theorem pyIndex_ok_of_mem (cols : List String) (nm : String)
    (h : nm ∈ cols) : ∃ i : Nat, pyIndex cols nm = Except.ok i := by
  induction cols with
  | nil => simp at h
  | cons y ys ih =>
      by_cases hy : y = nm
      · exact ⟨0, by simp [pyIndex, hy]⟩
      · have h2 : nm ∈ ys := by
          cases List.mem_cons.mp h with
          | inl he => exact absurd he.symm hy
          | inr hm => exact hm
        obtain ⟨i, hi⟩ := ih h2
        exact ⟨i + 1, by simp [pyIndex, hy, hi, Except.map]⟩

theorem pyIndex_error_of_not_mem (cols : List String) (nm : String)
    (h : nm ∉ cols) :
    pyIndex cols nm = Except.error (PyErr.valueError msgIndexNotFound) := by
  induction cols with
  | nil => rfl
  | cons y ys ih =>
      have hy : ¬ y = nm := fun he => h (he ▸ List.mem_cons_self y ys)
      have h2 : nm ∉ ys := fun hm => h (List.mem_cons_of_mem y hm)
      simp [pyIndex, hy, ih h2, Except.map]

/-- Claim C3: constructing FeatureGenerator with a column-name list fails
with the domain error (wrapping the ValueError of the name lookup) exactly
when one of the four required names is absent, and succeeds when all four
are present. -/
theorem c3_required_names (flag : Bool) (t p h b : Nat)
    (cols : List String) :
    ((COLUMN_TOTAL_ROOMS ∈ cols ∧ COLUMN_POPULATION ∈ cols ∧
      COLUMN_HOUSEHOLDS ∈ cols ∧ COLUMN_TOTAL_BEDROOM ∈ cols) →
      ∃ fg : FeatureGenerator,
        FeatureGenerator.init flag t p h b (some cols) = Except.ok fg) ∧
    (¬(COLUMN_TOTAL_ROOMS ∈ cols ∧ COLUMN_POPULATION ∈ cols ∧
      COLUMN_HOUSEHOLDS ∈ cols ∧ COLUMN_TOTAL_BEDROOM ∈ cols) →
      FeatureGenerator.init flag t p h b (some cols) =
        Except.error (PyErr.housingError
          (PyErr.valueError msgIndexNotFound))) := by
  constructor
  · rintro ⟨h1, h2, h3, h4⟩
    obtain ⟨i1, e1⟩ := pyIndex_ok_of_mem cols COLUMN_TOTAL_ROOMS h1
    obtain ⟨i2, e2⟩ := pyIndex_ok_of_mem cols COLUMN_POPULATION h2
    obtain ⟨i3, e3⟩ := pyIndex_ok_of_mem cols COLUMN_HOUSEHOLDS h3
    obtain ⟨i4, e4⟩ := pyIndex_ok_of_mem cols COLUMN_TOTAL_BEDROOM h4
    refine ⟨FeatureGenerator.mk (some cols) flag i1 i2 i3 i4, ?_⟩
    simp [FeatureGenerator.init, e1, e2, e3, e4, Except.bind, bind,
      Except.pure, pure, Except.mapError]
  · intro hmiss
    by_cases h1 : COLUMN_TOTAL_ROOMS ∈ cols
    · obtain ⟨i1, e1⟩ := pyIndex_ok_of_mem cols COLUMN_TOTAL_ROOMS h1
      by_cases h2 : COLUMN_POPULATION ∈ cols
      · obtain ⟨i2, e2⟩ := pyIndex_ok_of_mem cols COLUMN_POPULATION h2
        by_cases h3 : COLUMN_HOUSEHOLDS ∈ cols
        · obtain ⟨i3, e3⟩ := pyIndex_ok_of_mem cols COLUMN_HOUSEHOLDS h3
          by_cases h4 : COLUMN_TOTAL_BEDROOM ∈ cols
          · exact absurd ⟨h1, h2, h3, h4⟩ hmiss
          · have e4 := pyIndex_error_of_not_mem cols COLUMN_TOTAL_BEDROOM h4
            simp [FeatureGenerator.init, e1, e2, e3, e4, Except.bind, bind,
              Except.pure, pure, Except.mapError]
        · have e3 := pyIndex_error_of_not_mem cols COLUMN_HOUSEHOLDS h3
          simp [FeatureGenerator.init, e1, e2, e3, Except.bind, bind,
            Except.pure, pure, Except.mapError]
      · have e2 := pyIndex_error_of_not_mem cols COLUMN_POPULATION h2
        simp [FeatureGenerator.init, e1, e2, Except.bind, bind, Except.pure,
          pure, Except.mapError]
    · have e1 := pyIndex_error_of_not_mem cols COLUMN_TOTAL_ROOMS h1
      simp [FeatureGenerator.init, e1, Except.bind, bind, Except.pure, pure,
        Except.mapError]

/-- Witness for C3: a one-name list misses total_rooms and fails with the
wrapped ValueError; the full four-name list succeeds. -/
theorem c3_required_names_witness :
    (¬(COLUMN_TOTAL_ROOMS ∈ [COLUMN_POPULATION] ∧
       COLUMN_POPULATION ∈ [COLUMN_POPULATION] ∧
       COLUMN_HOUSEHOLDS ∈ [COLUMN_POPULATION] ∧
       COLUMN_TOTAL_BEDROOM ∈ [COLUMN_POPULATION])) ∧
    FeatureGenerator.init true 3 5 6 4 (some [COLUMN_POPULATION]) =
      Except.error (PyErr.housingError
        (PyErr.valueError msgIndexNotFound)) ∧
    ∃ fg : FeatureGenerator,
      FeatureGenerator.init true 3 5 6 4 (some [COLUMN_TOTAL_ROOMS,
        COLUMN_TOTAL_BEDROOM, COLUMN_POPULATION, COLUMN_HOUSEHOLDS]) =
        Except.ok fg :=
  ⟨by decide,
    (c3_required_names true 3 5 6 4 [COLUMN_POPULATION]).2 (by decide),
    (c3_required_names true 3 5 6 4 [COLUMN_TOTAL_ROOMS,
      COLUMN_TOTAL_BEDROOM, COLUMN_POPULATION, COLUMN_HOUSEHOLDS]).1
      (by decide)⟩

/-- Claim C10: with a columns list supplied, the four passed positional
index arguments are ignored (any two calls differing only in them build
the same result), the stored indices are the looked-up positions of the
four required names, and with columns equal to none the passed arguments
(defaults 3, 5, 6, 4 in the source) are stored as given. -/
theorem c10_columns_override_indices (flag : Bool)
    (t p h b t2 p2 h2 b2 : Nat) (cols : List String) :
    FeatureGenerator.init flag t p h b (some cols) =
      FeatureGenerator.init flag t2 p2 h2 b2 (some cols) ∧
    (∀ fg : FeatureGenerator,
      FeatureGenerator.init flag t p h b (some cols) = Except.ok fg →
        pyIndex cols COLUMN_TOTAL_ROOMS = Except.ok fg.total_rooms_ix ∧
        pyIndex cols COLUMN_POPULATION = Except.ok fg.population_ix ∧
        pyIndex cols COLUMN_HOUSEHOLDS = Except.ok fg.households_ix ∧
        pyIndex cols COLUMN_TOTAL_BEDROOM =
          Except.ok fg.total_bedrooms_ix) ∧
    FeatureGenerator.init flag t p h b none =
      Except.ok (FeatureGenerator.mk none flag t p h b) := by
  refine ⟨rfl, ?_, rfl⟩
  intro fg hok
  cases e1 : pyIndex cols COLUMN_TOTAL_ROOMS with
  | error e =>
      simp [FeatureGenerator.init, e1, Except.bind, bind, Except.mapError]
        at hok
  | ok i1 =>
  cases e2 : pyIndex cols COLUMN_POPULATION with
  | error e =>
      simp [FeatureGenerator.init, e1, e2, Except.bind, bind,
        Except.mapError] at hok
  | ok i2 =>
  cases e3 : pyIndex cols COLUMN_HOUSEHOLDS with
  | error e =>
      simp [FeatureGenerator.init, e1, e2, e3, Except.bind, bind,
        Except.mapError] at hok
  | ok i3 =>
  cases e4 : pyIndex cols COLUMN_TOTAL_BEDROOM with
  | error e =>
      simp [FeatureGenerator.init, e1, e2, e3, e4, Except.bind, bind,
        Except.mapError] at hok
  | ok i4 =>
      simp [FeatureGenerator.init, e1, e2, e3, e4, Except.bind, bind,
        Except.pure, pure, Except.mapError] at hok
      subst hok
      exact ⟨rfl, rfl, rfl, rfl⟩

/-- Witness for C10: with the four names at positions 0, 2, 3, 1 the
passed indices 9, 9, 9, 9 are ignored and the stored indices are the
positions; with columns none the passed indices are kept. -/
theorem c10_columns_override_indices_witness :
    FeatureGenerator.init true 9 9 9 9 (some [COLUMN_TOTAL_ROOMS,
        COLUMN_TOTAL_BEDROOM, COLUMN_POPULATION, COLUMN_HOUSEHOLDS]) =
      FeatureGenerator.init true 0 0 0 0 (some [COLUMN_TOTAL_ROOMS,
        COLUMN_TOTAL_BEDROOM, COLUMN_POPULATION, COLUMN_HOUSEHOLDS]) ∧
    (pyIndex [COLUMN_TOTAL_ROOMS, COLUMN_TOTAL_BEDROOM, COLUMN_POPULATION,
        COLUMN_HOUSEHOLDS] COLUMN_TOTAL_ROOMS =
      Except.ok (FeatureGenerator.mk (some [COLUMN_TOTAL_ROOMS,
        COLUMN_TOTAL_BEDROOM, COLUMN_POPULATION, COLUMN_HOUSEHOLDS]) true
        0 2 3 1).total_rooms_ix ∧
     pyIndex [COLUMN_TOTAL_ROOMS, COLUMN_TOTAL_BEDROOM, COLUMN_POPULATION,
        COLUMN_HOUSEHOLDS] COLUMN_POPULATION =
      Except.ok (FeatureGenerator.mk (some [COLUMN_TOTAL_ROOMS,
        COLUMN_TOTAL_BEDROOM, COLUMN_POPULATION, COLUMN_HOUSEHOLDS]) true
        0 2 3 1).population_ix ∧
     pyIndex [COLUMN_TOTAL_ROOMS, COLUMN_TOTAL_BEDROOM, COLUMN_POPULATION,
        COLUMN_HOUSEHOLDS] COLUMN_HOUSEHOLDS =
      Except.ok (FeatureGenerator.mk (some [COLUMN_TOTAL_ROOMS,
        COLUMN_TOTAL_BEDROOM, COLUMN_POPULATION, COLUMN_HOUSEHOLDS]) true
        0 2 3 1).households_ix ∧
     pyIndex [COLUMN_TOTAL_ROOMS, COLUMN_TOTAL_BEDROOM, COLUMN_POPULATION,
        COLUMN_HOUSEHOLDS] COLUMN_TOTAL_BEDROOM =
      Except.ok (FeatureGenerator.mk (some [COLUMN_TOTAL_ROOMS,
        COLUMN_TOTAL_BEDROOM, COLUMN_POPULATION, COLUMN_HOUSEHOLDS]) true
        0 2 3 1).total_bedrooms_ix) ∧
    FeatureGenerator.init true 9 9 9 9 none =
      Except.ok (FeatureGenerator.mk none true 9 9 9 9) :=
  ⟨(c10_columns_override_indices true 9 9 9 9 0 0 0 0 [COLUMN_TOTAL_ROOMS,
      COLUMN_TOTAL_BEDROOM, COLUMN_POPULATION, COLUMN_HOUSEHOLDS]).1,
   (c10_columns_override_indices true 9 9 9 9 0 0 0 0 [COLUMN_TOTAL_ROOMS,
      COLUMN_TOTAL_BEDROOM, COLUMN_POPULATION, COLUMN_HOUSEHOLDS]).2.1
      (FeatureGenerator.mk (some [COLUMN_TOTAL_ROOMS, COLUMN_TOTAL_BEDROOM,
        COLUMN_POPULATION, COLUMN_HOUSEHOLDS]) true 0 2 3 1) (by rfl),
   (c10_columns_override_indices true 9 9 9 9 0 0 0 0 [COLUMN_TOTAL_ROOMS,
      COLUMN_TOTAL_BEDROOM, COLUMN_POPULATION, COLUMN_HOUSEHOLDS]).2.2⟩

theorem optToExcept_ok_iff {β : Type} (e : PyErr) (o : Option β) (a : β) :
    optToExcept e o = Except.ok a ↔ o = some a := by
  cases o <;> simp [optToExcept]

theorem mapMO_get {β γ : Type} (f : β → Option γ) (l : List β) :
    ∀ out : List γ, mapMO f l = some out →
      out.length = l.length ∧
      ∀ (i : Nat) (x : β), l[i]? = some x →
        ∃ y : γ, f x = some y ∧ out[i]? = some y := by
  induction l with
  | nil =>
      intro out h
      simp [mapMO] at h
      subst h
      refine ⟨rfl, ?_⟩
      intro i x hx
      simp at hx
  | cons a l ih =>
      intro out h
      cases hfa : f a with
      | none => simp [mapMO, hfa] at h
      | some y =>
          cases hrest : mapMO f l with
          | none => simp [mapMO, hfa, hrest] at h
          | some out2 =>
              simp [mapMO, hfa, hrest] at h
              subst h
              obtain ⟨hlen, hget⟩ := ih out2 hrest
              refine ⟨by simp [hlen], ?_⟩
              intro i x hx
              cases i with
              | zero =>
                  simp at hx
                  subst hx
                  exact ⟨y, hfa, by simp⟩
              | succ n =>
                  simp at hx ⊢
                  exact hget n x hx

theorem mapME_get {β γ : Type} (f : β → Except PyErr γ)
    (l : List β) :
    ∀ out : List γ, mapME f l = Except.ok out →
      out.length = l.length ∧
      ∀ (j : Nat) (x : β), l[j]? = some x →
        ∃ y : γ, f x = Except.ok y ∧ out[j]? = some y := by
  induction l with
  | nil =>
      intro out h
      simp [mapME] at h
      subst h
      refine ⟨rfl, ?_⟩
      intro j x hx
      simp at hx
  | cons a l ih =>
      intro out h
      cases hfa : f a with
      | error e => simp [mapME, hfa] at h
      | ok y =>
          cases hrest : mapME f l with
          | error e => simp [mapME, hfa, hrest, Except.map] at h
          | ok out2 =>
              simp [mapME, hfa, hrest, Except.map] at h
              subst h
              obtain ⟨hlen, hget⟩ := ih out2 hrest
              refine ⟨by simp [hlen], ?_⟩
              intro j x hx
              cases j with
              | zero =>
                  simp at hx
                  subst hx
                  exact ⟨y, hfa, by simp⟩
              | succ n =>
                  simp at hx ⊢
                  exact hget n x hx

theorem mapME_ok_forall {β γ : Type} (f : β → Except PyErr γ)
    (l : List β) (out : List γ) (h : mapME f l = Except.ok out) :
    ∀ x ∈ l, ∃ y : γ, f x = Except.ok y := by
  intro x hx
  obtain ⟨i, hi, he⟩ := List.getElem_of_mem hx
  obtain ⟨_, hget⟩ := mapME_get f l out h
  obtain ⟨y, hy, _⟩ := hget i x (by rw [List.getElem?_eq_getElem hi, he])
  exact ⟨y, hy⟩

theorem oheEncode1_ok_elim {α : Type} [Zero α] [One α] (hu : String)
    (cj : List String) (x : String) (w : List α)
    (h : oheEncode1 hu cj x = Except.ok w) :
    x ∈ cj ∨ hu = strHandleUnknownIgnore := by
  by_cases h1 : x ∈ cj
  · exact Or.inl h1
  · by_cases h2 : hu = strHandleUnknownIgnore
    · exact Or.inr h2
    · simp [oheEncode1, h1, h2] at h

theorem encodeRow_ok_position {α : Type} [Zero α] [One α] (hu : String) :
    ∀ (cats : List (List String)) (row : List String) (v : List α)
      (j : Nat) (cj : List String) (x : String),
      encodeRow (α := α) hu cats row = Except.ok v →
      cats[j]? = some cj → row[j]? = some x →
      ∃ w : List α, oheEncode1 hu cj x = Except.ok w := by
  intro cats
  induction cats with
  | nil =>
      intro row v j cj x _ hcj _
      simp at hcj
  | cons ct cts ih =>
      intro row v j cj x hok hcj hx
      cases row with
      | nil => simp [encodeRow] at hok
      | cons x0 xs =>
          cases henc : oheEncode1 (α := α) hu ct x0 with
          | error e =>
              simp [encodeRow, henc, Except.bind, bind] at hok
          | ok w0 =>
              cases hrest : encodeRow (α := α) hu cts xs with
              | error e =>
                  simp [encodeRow, henc, hrest, Except.bind, bind] at hok
              | ok v2 =>
                  cases j with
                  | zero =>
                      simp at hcj hx
                      subst hcj
                      subst hx
                      exact ⟨w0, henc⟩
                  | succ n =>
                      simp at hcj hx
                      exact ih xs v2 n cj x hrest hcj hx

/-- If the imputed categorical block of a transform-only application
contains, at column j and row i, a present value outside the categories
learned for that column, the categorical branch reports an error under the
default error policy. -/
theorem catPipelineTransform_unknown {α : Type} [LinearOrder α] [Add α]
    [Sub α] [Mul α] [Div α] [Zero α] [One α] [NatCast α]
    (ohe : OneHotEncoder) (fc : FittedCatPipeline α)
    (catCols : List (List (Option String))) (nrows : Nat)
    (j i : Nat) (data : List (Option String)) (x : String)
    (cj : List String)
    (hohe : ohe.handle_unknown = strHandleUnknownError)
    (hdatacol : catCols[j]? = some data)
    (hdata : data[i]? = some (some x))
    (hi : i < nrows)
    (hcats : fc.categories[j]? = some cj)
    (hx : x ∉ cj) :
    ∃ e : PyErr,
      catPipelineTransform ohe fc catCols nrows = Except.error e := by
  by_cases hlen : catCols.length = fc.statistics.length
  · have hjlt : j < catCols.length := (List.getElem?_eq_some.mp hdatacol).1
    have hjlt2 : j < fc.statistics.length := hlen ▸ hjlt
    have hstat : fc.statistics[j]? = some fc.statistics[j] :=
      List.getElem?_eq_getElem hjlt2
    have himp : (List.zipWith
        (fun cl st => cl.map (fun o => o.getD st)) catCols
        fc.statistics)[j]? =
        some (data.map (fun o => o.getD fc.statistics[j])) :=
      zipWith_getElem_some _ catCols fc.statistics j data fc.statistics[j]
        hdatacol hstat
    have hent : (data.map (fun o => o.getD fc.statistics[j]))[i]? =
        some x := by
      rw [List.getElem?_map, hdata]
      rfl
    cases hr : rowsFromCols (List.zipWith
        (fun cl st => cl.map (fun o => o.getD st)) catCols fc.statistics)
        nrows with
    | error e =>
        exact ⟨e, by simp [catPipelineTransform, hlen, hr, Except.bind,
          bind]⟩
    | ok rows =>
        rw [rowsFromCols, optToExcept_ok_iff] at hr
        obtain ⟨hrlen, hrget⟩ := mapMO_get _ _ rows hr
        obtain ⟨rowi, hrowi1, hrowi2⟩ := hrget i i
          (by simp [List.getElem?_range, hi])
        obtain ⟨hrowlen, hrowget⟩ := mapMO_get _ _ rowi hrowi1
        obtain ⟨xval, hxval1, hxval2⟩ := hrowget j _ himp
        rw [hent] at hxval1
        cases hxval1
        have hr2 : rowsFromCols (List.zipWith
            (fun cl st => cl.map (fun o => o.getD st)) catCols
            fc.statistics) nrows = Except.ok rows := by
          rw [rowsFromCols, hr]
          rfl
        cases he : mapME (fun r =>
            encodeRow (α := α) ohe.handle_unknown fc.categories r) rows with
        | error e =>
            exact ⟨e, by simp [catPipelineTransform, hlen, hr2, he,
              Except.bind, bind]⟩
        | ok encRows =>
            exfalso
            have hmem : rowi ∈ rows := by
              obtain ⟨hlt2, he2⟩ := List.getElem?_eq_some.mp hrowi2
              exact he2 ▸ List.getElem_mem hlt2
            obtain ⟨v, hv⟩ := mapME_ok_forall _ rows encRows he rowi
              hmem
            obtain ⟨w, hw⟩ := encodeRow_ok_position ohe.handle_unknown
              fc.categories rowi v j cj x hv hcats hxval2
            cases oheEncode1_ok_elim ohe.handle_unknown cj x w hw with
            | inl hmem2 => exact hx hmem2
            | inr hign =>
                rw [hohe] at hign
                exact absurd hign (by decide)
  · exact ⟨PyErr.valueError msgShapeMismatch,
      by simp [catPipelineTransform, hlen]⟩

theorem selectStrCols_get {α : Type} (df : DataFrame α)
    (names : List String) (cols : List (List (Option String)))
    (h : selectStrCols df names = Except.ok cols)
    (j : Nat) (nm : String) (d : List (Option String))
    (hnm : names[j]? = some nm)
    (hcol : df.getCol nm = Except.ok (PdCol.strs d)) :
    cols[j]? = some d := by
  obtain ⟨_, hget⟩ := mapME_get _ names cols h
  obtain ⟨y, hy1, hy2⟩ := hget j nm hnm
  have : y = d := by
    simp [hcol, Except.bind, bind, Except.pure, pure] at hy1
    exact hy1.symm
  rw [this] at hy2
  exact hy2

/-- Claim C4, as stated, is false on the code: the one-hot encoder is
constructed with its default error policy for unknown categories (line 107
builds OneHotEncoder with no arguments), so the combined transformer,
fitted on training inputs whose categorical column holds only the values A
and B, raises a ValueError when applied to test inputs holding the unseen
value C. -/
theorem c4_counterexample :
    c4run = Except.error (PyErr.valueError msgUnknownCategory) := by rfl

/-- Claim C4 amended: when the test table holds, in a one-hot encoded
column, a present value outside the categories learned at fit time, the
fitted combined transformer raises (returns an error) rather than
accepting the row, because the encoder is built with the default
handle_unknown policy of error. -/
theorem c4_unseen_category_raises {α : Type} [LinearOrder α] [Add α]
    [Sub α] [Mul α] [Div α] [Zero α] [One α] [NatCast α]
    (f : FittedPreprocessing α) (df : DataFrame α)
    (j i : Nat) (cname : String) (data : List (Option String)) (x : String)
    (cj : List String)
    (hohe : f.ohe.handle_unknown = strHandleUnknownError)
    (hname : f.categorical_columns[j]? = some cname)
    (hcol : df.getCol cname = Except.ok (PdCol.strs data))
    (hdata : data[i]? = some (some x))
    (hi : i < df.nrows)
    (hcats : f.cat.categories[j]? = some cj)
    (hx : x ∉ cj) :
    ∃ e : PyErr, f.transform df = Except.error e := by
  cases h1 : selectNumCols df f.numerical_columns with
  | error e =>
      exact ⟨e, by simp [FittedPreprocessing.transform, h1, Except.bind,
        bind]⟩
  | ok numCols =>
  cases h2 : selectStrCols df f.categorical_columns with
  | error e =>
      exact ⟨e, by simp [FittedPreprocessing.transform, h1, h2, Except.bind,
        bind]⟩
  | ok catCols =>
  cases h3 : numPipelineTransform f.num numCols df.nrows with
  | error e =>
      exact ⟨e, by simp [FittedPreprocessing.transform, h1, h2, h3,
        Except.bind, bind]⟩
  | ok numOut =>
      have hdatacol : catCols[j]? = some data :=
        selectStrCols_get df f.categorical_columns catCols h2 j cname data
          hname hcol
      obtain ⟨e, he⟩ := catPipelineTransform_unknown f.ohe f.cat catCols
        df.nrows j i data x cj hohe hdatacol hdata hi hcats hx
      exact ⟨e, by simp [FittedPreprocessing.transform, h1, h2, h3, he,
        Except.bind, bind]⟩

/-- Witness for the amended C4 at the concrete fitted transformer: its
categorical column ocean learned the categories A and B, and the test
table holds the unseen value C at row 0. -/
theorem c4_unseen_category_raises_witness :
    c4fittedEx.ohe.handle_unknown = strHandleUnknownError ∧
    c4fittedEx.categorical_columns[0]? = some strOcean ∧
    testUnseenInputsEx.getCol strOcean =
      Except.ok (PdCol.strs [ some strC ]) ∧
    c4fittedEx.cat.categories[0]? = some [ strA, strB ] ∧
    strC ∉ [ strA, strB ] ∧
    ∃ e : PyErr,
      c4fittedEx.transform testUnseenInputsEx = Except.error e :=
  ⟨rfl, rfl, rfl, rfl, by decide,
    c4_unseen_category_raises c4fittedEx testUnseenInputsEx 0 0 strOcean
      [ some strC ] strC [ strA, strB ] rfl rfl rfl rfl (by decide) rfl
      (by decide)⟩

/-- Decomposition of any successful initiate_data_tranformation run: every
collaborator call and every internal stage succeeded, in source order, and
the returned record is exactly the artifact built at lines 160-180 with
the two written arrays and the fitted transformer. -/
theorem initiate_ok_elim {α : Type} [LinearOrder α] [Add α] [Sub α] [Mul α]
    [Div α] [Zero α] [One α] [NatCast α] (sqrt : α → α)
    (C : Collaborators α) (cfg : DataTransformationConfig)
    (ing : DataIngestionArtifact) (val : DataValidationArtifact)
    (r : RunResult α)
    (h : initiate_data_tranformation sqrt C cfg ing val = Except.ok r) :
    ∃ (pobj : PreprocessingObject) (train_df test_df : DataFrame α)
      (schema : DatasetSchema) (ftr fte : DataFrame α) (ttr tte : List α)
      (fitRes : FittedPreprocessing α × List (List α))
      (testArr trainArr2 testArr2 : List (List α)),
      get_data_transformer_object C.read_yaml_file val.schema_file_path =
        Except.ok pobj ∧
      C.load_data ing.train_file_path val.schema_file_path =
        Except.ok train_df ∧
      C.load_data ing.test_file_path val.schema_file_path =
        Except.ok test_df ∧
      C.read_yaml_file val.schema_file_path = Except.ok schema ∧
      train_df.dropCol schema.target_column = Except.ok ftr ∧
      train_df.getTargetCol schema.target_column = Except.ok ttr ∧
      test_df.dropCol schema.target_column = Except.ok fte ∧
      test_df.getTargetCol schema.target_column = Except.ok tte ∧
      pobj.fit_transform sqrt ftr = Except.ok fitRes ∧
      fitRes.1.transform fte = Except.ok testArr ∧
      npAppendCol fitRes.2 ttr = Except.ok trainArr2 ∧
      npAppendCol testArr tte = Except.ok testArr2 ∧
      (∃ u : Unit, C.save_numpy_array_data
        (osPathJoin cfg.transformed_train_dir
          (pyReplace (osPathBasename ing.train_file_path) strCsv strNpz))
        trainArr2 = Except.ok u) ∧
      (∃ u : Unit, C.save_numpy_array_data
        (osPathJoin cfg.transformed_test_dir
          (pyReplace (osPathBasename ing.test_file_path) strCsv strNpz))
        testArr2 = Except.ok u) ∧
      (∃ u : Unit, C.save_object cfg.preprocessed_object_file_path
        fitRes.1 = Except.ok u) ∧
      r = RunResult.mk (DataTransformationArtifact.mk
          (osPathJoin cfg.transformed_train_dir
            (pyReplace (osPathBasename ing.train_file_path) strCsv strNpz))
          (osPathJoin cfg.transformed_test_dir
            (pyReplace (osPathBasename ing.test_file_path) strCsv strNpz))
          cfg.preprocessed_object_file_path true msgCompleted)
        trainArr2 testArr2 fitRes.1 := by
  unfold initiate_data_tranformation at h
  rw [mapError_ok_iff] at h
  cases e1 : get_data_transformer_object C.read_yaml_file
      val.schema_file_path with
  | error e => simp [e1, Except.bind, bind] at h
  | ok pobj =>
  simp only [e1, Except.bind, bind] at h
  cases e2 : C.load_data ing.train_file_path val.schema_file_path with
  | error e => simp [e2, Except.bind, bind] at h
  | ok train_df =>
  simp only [e2, Except.bind, bind] at h
  cases e3 : C.load_data ing.test_file_path val.schema_file_path with
  | error e => simp [e3, Except.bind, bind] at h
  | ok test_df =>
  simp only [e3, Except.bind, bind] at h
  cases e4 : C.read_yaml_file val.schema_file_path with
  | error e => simp [e4, Except.bind, bind] at h
  | ok schema =>
  simp only [e4, Except.bind, bind] at h
  cases e5 : train_df.dropCol schema.target_column with
  | error e => simp [e5, Except.bind, bind] at h
  | ok ftr =>
  simp only [e5, Except.bind, bind] at h
  cases e6 : train_df.getTargetCol schema.target_column with
  | error e => simp [e6, Except.bind, bind] at h
  | ok ttr =>
  simp only [e6, Except.bind, bind] at h
  cases e7 : test_df.dropCol schema.target_column with
  | error e => simp [e7, Except.bind, bind] at h
  | ok fte =>
  simp only [e7, Except.bind, bind] at h
  cases e8 : test_df.getTargetCol schema.target_column with
  | error e => simp [e8, Except.bind, bind] at h
  | ok tte =>
  simp only [e8, Except.bind, bind] at h
  cases e9 : pobj.fit_transform sqrt ftr with
  | error e => simp [e9, Except.bind, bind] at h
  | ok fitRes =>
  simp only [e9, Except.bind, bind] at h
  cases e10 : fitRes.1.transform fte with
  | error e => simp [e10, Except.bind, bind] at h
  | ok testArr =>
  simp only [e10, Except.bind, bind] at h
  cases e11 : npAppendCol fitRes.2 ttr with
  | error e => simp [e11, Except.bind, bind] at h
  | ok trainArr2 =>
  simp only [e11, Except.bind, bind] at h
  cases e12 : npAppendCol testArr tte with
  | error e => simp [e12, Except.bind, bind] at h
  | ok testArr2 =>
  simp only [e12, Except.bind, bind] at h
  cases e13 : C.save_numpy_array_data
      (osPathJoin cfg.transformed_train_dir
        (pyReplace (osPathBasename ing.train_file_path) strCsv strNpz))
      trainArr2 with
  | error e => simp [e13, Except.bind, bind] at h
  | ok u13 =>
  simp only [e13, Except.bind, bind] at h
  cases e14 : C.save_numpy_array_data
      (osPathJoin cfg.transformed_test_dir
        (pyReplace (osPathBasename ing.test_file_path) strCsv strNpz))
      testArr2 with
  | error e => simp [e14, Except.bind, bind] at h
  | ok u14 =>
  simp only [e14, Except.bind, bind] at h
  cases e15 : C.save_object cfg.preprocessed_object_file_path fitRes.1 with
  | error e => simp [e15, Except.bind, bind] at h
  | ok u15 =>
  simp only [e15, Except.bind, bind, Except.pure, pure] at h
  exact ⟨pobj, train_df, test_df, schema, ftr, fte, ttr, tte, fitRes,
    testArr, trainArr2, testArr2, rfl, rfl, rfl, rfl, e5, e6, e7, e8, e9,
    e10, e11, e12, ⟨u13, e13⟩, ⟨u14, e14⟩, ⟨u15, e15⟩,
    (Except.ok.inj h).symm⟩

/-- Claim C5: the transformer is fitted on the training inputs only and
applied to the test inputs with transform alone, so two successful runs
that share the schema reader and the loaded training table, and differ
only in what the loader returns for the test path, produce the same
fitted transformer (all learned parameters) and the same transformed
training array. -/
theorem c5_no_test_leakage {α : Type} [LinearOrder α] [Add α] [Sub α]
    [Mul α] [Div α] [Zero α] [One α] [NatCast α] (sqrt : α → α)
    (A B : Collaborators α) (cfg : DataTransformationConfig)
    (ing : DataIngestionArtifact) (val : DataValidationArtifact)
    (r1 r2 : RunResult α)
    (hyaml : A.read_yaml_file = B.read_yaml_file)
    (htrain : A.load_data ing.train_file_path val.schema_file_path =
      B.load_data ing.train_file_path val.schema_file_path)
    (h1 : initiate_data_tranformation sqrt A cfg ing val = Except.ok r1)
    (h2 : initiate_data_tranformation sqrt B cfg ing val = Except.ok r2) :
    r1.preprocessing = r2.preprocessing ∧ r1.train_arr = r2.train_arr := by
  obtain ⟨pobj1, tdf1, sdf1, sch1, ftr1, fte1, ttr1, tte1, fit1, te1, tra1,
    tea1, g1, l1, l1t, y1, d1, t1, d1t, t1t, f1, x1, a1, a1t, _, _, _,
    hr1⟩ := initiate_ok_elim sqrt A cfg ing val r1 h1
  obtain ⟨pobj2, tdf2, sdf2, sch2, ftr2, fte2, ttr2, tte2, fit2, te2, tra2,
    tea2, g2, l2, l2t, y2, d2, t2, d2t, t2t, f2, x2, a2, a2t, _, _, _,
    hr2⟩ := initiate_ok_elim sqrt B cfg ing val r2 h2
  rw [hyaml] at g1 y1
  rw [htrain] at l1
  have hpobj : pobj1 = pobj2 := Except.ok.inj (g1.symm.trans g2)
  subst hpobj
  have htdf : tdf1 = tdf2 := Except.ok.inj (l1.symm.trans l2)
  subst htdf
  have hsch : sch1 = sch2 := Except.ok.inj (y1.symm.trans y2)
  subst hsch
  have hftr : ftr1 = ftr2 := Except.ok.inj (d1.symm.trans d2)
  subst hftr
  have httr : ttr1 = ttr2 := Except.ok.inj (t1.symm.trans t2)
  subst httr
  have hfit : fit1 = fit2 := Except.ok.inj (f1.symm.trans f2)
  subst hfit
  have htra : tra1 = tra2 := Except.ok.inj (a1.symm.trans a2)
  subst htra
  rw [hr1, hr2]
  exact ⟨rfl, rfl⟩

/-- Witness for C5: two concrete integer runs whose loaders agree on the
training path and return different test tables; both succeed and agree on
the fitted transformer and the transformed training array. -/
theorem c5_no_test_leakage_witness :
    initiate_data_tranformation idZ collabA5 cfgEx ingEx valEx =
      Except.ok c5resA ∧
    initiate_data_tranformation idZ collabB5 cfgEx ingEx valEx =
      Except.ok c5resB ∧
    collabA5.read_yaml_file = collabB5.read_yaml_file ∧
    collabA5.load_data ingEx.train_file_path valEx.schema_file_path =
      collabB5.load_data ingEx.train_file_path valEx.schema_file_path ∧
    c5resA.preprocessing = c5resB.preprocessing ∧
    c5resA.train_arr = c5resB.train_arr :=
  ⟨rfl, rfl, rfl, rfl,
   (c5_no_test_leakage idZ collabA5 collabB5 cfgEx ingEx valEx c5resA
     c5resB rfl rfl rfl rfl).1,
   (c5_no_test_leakage idZ collabA5 collabB5 cfgEx ingEx valEx c5resA
     c5resB rfl rfl rfl rfl).2⟩

/-- Claim C8, as stated, is false on the code: the source derives the
output name with str.replace, which substitutes every occurrence of the
substring .csv in the base name, not only the extension.  For the source
path dir/train.csv.csv the code writes train.npz.npz, while replacing
only the extension would give train.csv.npz. -/
theorem c8_counterexample :
    initiate_data_tranformation idZ collabC8 cfgEx ingC8 valEx =
      Except.ok c8res ∧
    c8res.artifact.transformed_train_file_path = c8codePathLit ∧
    osPathJoin cfgEx.transformed_train_dir
      (replaceExtWithNpz (osPathBasename ingC8.train_file_path)) =
      c8specPathLit ∧
    c8codePathLit ≠ c8specPathLit :=
  ⟨rfl, rfl, rfl, by decide⟩

/-- Claim C8 amended: each output file name is the source base name with
every occurrence of the substring .csv replaced by .npz (Python
str.replace), joined under the configured transformed train or test
directory; for ordinary names with a single trailing .csv this coincides
with replacing the extension. -/
theorem c8_output_name_derivation {α : Type} [LinearOrder α] [Add α]
    [Sub α] [Mul α] [Div α] [Zero α] [One α] [NatCast α] (sqrt : α → α)
    (C : Collaborators α) (cfg : DataTransformationConfig)
    (ing : DataIngestionArtifact) (val : DataValidationArtifact)
    (r : RunResult α)
    (h : initiate_data_tranformation sqrt C cfg ing val = Except.ok r) :
    r.artifact.transformed_train_file_path =
      osPathJoin cfg.transformed_train_dir
        (pyReplace (osPathBasename ing.train_file_path) strCsv strNpz) ∧
    r.artifact.transformed_test_file_path =
      osPathJoin cfg.transformed_test_dir
        (pyReplace (osPathBasename ing.test_file_path) strCsv strNpz) := by
  obtain ⟨pobj, tdf, sdf, sch, ftr, fte, ttr, tte, fit, te, tra, tea, _, _,
    _, _, _, _, _, _, _, _, _, _, _, _, _, hr⟩ :=
    initiate_ok_elim sqrt C cfg ing val r h
  rw [hr]
  exact ⟨rfl, rfl⟩

/-- Witness for the amended C8 at a concrete successful integer run. -/
theorem c8_output_name_derivation_witness :
    initiate_data_tranformation idZ collabA5 cfgEx ingEx valEx =
      Except.ok c5resA ∧
    (c5resA.artifact.transformed_train_file_path =
      osPathJoin cfgEx.transformed_train_dir
        (pyReplace (osPathBasename ingEx.train_file_path) strCsv strNpz) ∧
     c5resA.artifact.transformed_test_file_path =
      osPathJoin cfgEx.transformed_test_dir
        (pyReplace (osPathBasename ingEx.test_file_path) strCsv strNpz)) :=
  ⟨rfl, c8_output_name_derivation idZ collabA5 cfgEx ingEx valEx c5resA
    rfl⟩

/-- Claim C9: every failure inside the public operations surfaces as the
single domain error type wrapping the original cause, and no operation
returns normally after an internal failure: every error initiate returns
is a wrapped domain error; a schema-read failure surfaces doubly wrapped
(once by get_data_transformer_object, once by initiate, exactly as the
nested try/except of the source); a train-load failure surfaces wrapped
with its cause; a normal return implies every collaborator call
succeeded; and the two FeatureGenerator operations likewise only ever
fail with the wrapped domain error. -/
theorem c9_error_propagation {α : Type} [LinearOrder α] [Add α] [Sub α]
    [Mul α] [Div α] [Zero α] [One α] [NatCast α] (sqrt : α → α)
    (C : Collaborators α) (cfg : DataTransformationConfig)
    (ing : DataIngestionArtifact) (val : DataValidationArtifact) :
    (∀ e : PyErr,
      initiate_data_tranformation sqrt C cfg ing val = Except.error e →
      ∃ c2 : PyErr, e = PyErr.housingError c2) ∧
    (∀ e : PyErr, C.read_yaml_file val.schema_file_path = Except.error e →
      initiate_data_tranformation sqrt C cfg ing val =
        Except.error (PyErr.housingError (PyErr.housingError e))) ∧
    (∀ (pobj : PreprocessingObject) (e : PyErr),
      get_data_transformer_object C.read_yaml_file val.schema_file_path =
        Except.ok pobj →
      C.load_data ing.train_file_path val.schema_file_path =
        Except.error e →
      initiate_data_tranformation sqrt C cfg ing val =
        Except.error (PyErr.housingError e)) ∧
    (∀ r : RunResult α,
      initiate_data_tranformation sqrt C cfg ing val = Except.ok r →
      (∃ train_df : DataFrame α,
        C.load_data ing.train_file_path val.schema_file_path =
          Except.ok train_df) ∧
      (∃ test_df : DataFrame α,
        C.load_data ing.test_file_path val.schema_file_path =
          Except.ok test_df) ∧
      (∃ u : Unit, C.save_object cfg.preprocessed_object_file_path
        r.preprocessing = Except.ok u)) ∧
    (∀ (flag : Bool) (t p h b : Nat) (cols : Option (List String))
      (e : PyErr), FeatureGenerator.init flag t p h b cols =
        Except.error e → ∃ c2 : PyErr, e = PyErr.housingError c2) ∧
    (∀ (fg : FeatureGenerator) (X : List (List α)) (e : PyErr),
      fg.transform X = Except.error e →
      ∃ c2 : PyErr, e = PyErr.housingError c2) := by
  refine ⟨?_, ?_, ?_, ?_, ?_, ?_⟩
  · intro e herr
    unfold initiate_data_tranformation at herr
    obtain ⟨c2, hc2, _⟩ := mapError_error_elim _ _ e herr
    exact ⟨c2, hc2⟩
  · intro e hre
    simp [initiate_data_tranformation, get_data_transformer_object, hre,
      Except.bind, bind, Except.mapError]
  · intro pobj e hok herr
    simp [initiate_data_tranformation, hok, herr, Except.bind, bind,
      Except.mapError]
  · intro r h
    obtain ⟨pobj, tdf, sdf, sch, ftr, fte, ttr, tte, fit, te, tra, tea,
      _, hl1, hl2, _, _, _, _, _, _, _, _, _, _, _, hsave, hr⟩ :=
      initiate_ok_elim sqrt C cfg ing val r h
    refine ⟨⟨tdf, hl1⟩, ⟨sdf, hl2⟩, ?_⟩
    rw [hr]
    exact hsave
  · intro flag t p h b cols e herr
    unfold FeatureGenerator.init at herr
    obtain ⟨c2, hc2, _⟩ := mapError_error_elim _ _ e herr
    exact ⟨c2, hc2⟩
  · intro fg X e herr
    unfold FeatureGenerator.transform at herr
    obtain ⟨c2, hc2, _⟩ := mapError_error_elim _ _ e herr
    exact ⟨c2, hc2⟩

/-- Witness for C9: a failing schema reader surfaces as the doubly wrapped
domain error at the concrete run, and the successful concrete run saved
its fitted transformer. -/
theorem c9_error_propagation_witness :
    initiate_data_tranformation idZ cFailEx cfgEx ingEx valEx =
      Except.error (PyErr.housingError (PyErr.housingError errBoom)) ∧
    (∃ u : Unit, collabA5.save_object cfgEx.preprocessed_object_file_path
      c5resA.preprocessing = Except.ok u) :=
  ⟨(c9_error_propagation idZ cFailEx cfgEx ingEx valEx).2.1 errBoom rfl,
   ((c9_error_propagation idZ collabA5 cfgEx ingEx valEx).2.2.2.1 c5resA
      (by rfl)).2.2⟩

end Housing
